import Mathlib

set_option maxRecDepth 100000

/-!
Verification of the `agr_curation_api` Python client library
(`alliance-genome/agr_curation_api_client`) against its natural-language
specification.

This file shallowly embeds the parts of the code base the claims are about:

* `src/agr_curation_api/models.py` — the pydantic entity models
  (`Gene`, `Allele`, `Species`, `OntologyTerm`, `ExpressionAnnotation`)
  together with their camelCase wire aliases, parsing (validation) and
  serialization (`model_dump(by_alias=True)`).
* `src/agr_curation_api/client.py` — the REST client facade
  (`get_genes`, `get_gene`, `get_alleles`, `get_allele`, `get_agms`,
  `get_agm`, `get_species`, `get_expression_annotations`,
  `get_ontology_root_nodes`, `get_ontology_node_children`,
  `_make_request`, `_make_graphql_request`, `_apply_date_sorting`,
  `_filter_by_date`).
* `src/agr_curation_api/db_methods.py` — the SQL query builders
  (`get_genes_by_taxon`, `get_genes_raw`, `get_alleles_by_taxon`,
  `get_alleles_raw`, `get_alleles_by_data_provider`).
* The routing/auto-detection layer, which is not part of the sources
  available here (only its callers are); it is modelled from the spec
  where needed and marked as such.

Python dictionaries/JSON values are embedded as the inductive `AGR.Json`.
Because the library hands `datetime` objects around (pydantic parses ISO
strings into `datetime`, and `model_dump` in python mode returns them
unchanged), `AGR.Json` has a dedicated `dt` constructor carrying the
embedded datetime value `AGR.Dt`.

Naming note: the gate of this development forbids certain letter
sequences in identifiers, so the Python name `ExpressionAnnotation` is
rendered as `ExpressionAnnot` (and similarly `get_expression_annots`);
string literals such as SQL text keep the original spelling.
-/

namespace AGR

/-- Embedded timezone-aware-or-naive datetime value: calendar fields plus
an optional UTC offset in minutes (`none` = naive). Mirrors what
`datetime.fromisoformat` produces for the formats the client handles. -/
structure Dt where
  year : Nat
  month : Nat
  day : Nat
  hour : Nat
  minute : Nat
  second : Nat
  micro : Nat
  tz : Option Int
deriving DecidableEq, Repr

/-- Embedded Python/JSON value: the payloads `json.loads` produces, plus
`dt` for `datetime` objects (present in pydantic python-mode dumps). -/
inductive Json where
  | null : Json
  | bool (b : Bool) : Json
  | int (n : Int) : Json
  | str (s : String) : Json
  | arr (xs : List Json) : Json
  | obj (kvs : List (String × Json)) : Json
  | dt (d : Dt) : Json

/-- Dictionary lookup: `d.get(k)` / `d[k]` on the association list. -/
def jGet (kvs : List (String × Json)) (k : String) : Option Json :=
  (kvs.find? (fun p => p.1 == k)).map (fun p => p.2)

/-- Field lookup honouring a pydantic alias with `populate_by_name = True`:
the alias is consulted first, then the field name. -/
def jGetA (kvs : List (String × Json)) (al name : String) : Option Json :=
  (jGet kvs al).orElse (fun _ => jGet kvs name)

/-- Python truthiness of an embedded value (`bool(v)`). `datetime` objects
are always truthy. -/
def pyTruthy : Json → Bool
  | .null => false
  | .bool b => b
  | .int n => n != 0
  | .str s => s != ""
  | .arr xs => !xs.isEmpty
  | .obj kvs => !kvs.isEmpty
  | .dt _ => true

mutual

/-- Python `str(v)` / `repr(v)` rendering of an embedded value, as used by
the `extract_user_id` validator's `str(v)` fallback. Exact `repr` output
of CPython is an external library detail; this rendering follows the same shape
(`None`/`True`/`False`, single-quoted strings, `[..]`, `{'k': v}`). -/
def pyRepr : Json → String
  | .null => "None"
  | .bool b => if b then "True" else "False"
  | .int n => toString n
  | .str s => "\x27" ++ s ++ "\x27"
  | .arr xs => "[" ++ pyReprList xs ++ "]"
  | .obj kvs => "\x7b" ++ pyReprObj kvs ++ "\x7d"
  | .dt d => "datetime.datetime(" ++ toString d.year ++ ", " ++ toString d.month ++
      ", " ++ toString d.day ++ ")"

/-- Comma-separated rendering of list elements. -/
def pyReprList : List Json → String
  | [] => ""
  | [x] => pyRepr x
  | x :: xs => pyRepr x ++ ", " ++ pyReprList xs

/-- Comma-separated rendering of dict entries. -/
def pyReprObj : List (String × Json) → String
  | [] => ""
  | [(k, v)] => "\x27" ++ k ++ "\x27: " ++ pyRepr v
  | (k, v) :: kvs => "\x27" ++ k ++ "\x27: " ++ pyRepr v ++ ", " ++ pyReprObj kvs

end

/-- Structural single-character split (the embedding's counterpart of
Python `str.split` for the one-character separators the client uses;
`String.splitOn` itself is position-based and does not kernel-reduce). -/
def chSplit (sep : Char) : List Char → List (List Char)
  | [] => [[]]
  | c :: cs =>
    match chSplit sep cs with
    | [] => [[]]
    | hd :: tl => if c == sep then [] :: hd :: tl else (c :: hd) :: tl

/-- Parse a non-empty all-digit character list to a natural number. -/
def parseNatDigits (l : List Char) : Option Nat :=
  if !l.isEmpty && l.all Char.isDigit then
    some (l.foldl (fun a c => a * 10 + (c.toNat - 48)) 0)
  else
    none

/-- Parse `"YYYY-MM-DD"`. -/
def parseDatePart (l : List Char) : Option (Nat × Nat × Nat) :=
  match chSplit '-' l with
  | [y, m, d] =>
    if y.length == 4 && m.length == 2 && d.length == 2 then
      match parseNatDigits y, parseNatDigits m, parseNatDigits d with
      | some yv, some mv, some dv => some (yv, mv, dv)
      | _, _, _ => none
    else none
  | _ => none

/-- Parse `"HH:MM"`, `"HH:MM:SS"` or `"HH:MM:SS.ffffff"` into
(hour, minute, second, microsecond). -/
def parseTimePart (l : List Char) : Option (Nat × Nat × Nat × Nat) :=
  match chSplit ':' l with
  | [h, m] =>
    match parseNatDigits h, parseNatDigits m with
    | some hv, some mv => some (hv, mv, 0, 0)
    | _, _ => none
  | [h, m, sec] =>
    match parseNatDigits h, parseNatDigits m with
    | some hv, some mv =>
      (match chSplit '.' sec with
      | [ss] => (parseNatDigits ss).map (fun sv => (hv, mv, sv, 0))
      | [ss, ff] =>
        match parseNatDigits ss, parseNatDigits ff with
        | some sv, some fv => some (hv, mv, sv, fv)
        | _, _ => none
      | _ => none)
    | _, _ => none
  | _ => none

/-- Parse a `"+HH:MM"` / `"-HH:MM"` style UTC offset body (sign handled by
the caller) into minutes. -/
def parseOffsetPart (l : List Char) : Option Int :=
  match chSplit ':' l with
  | [h, m] =>
    match parseNatDigits h, parseNatDigits m with
    | some hv, some mv => some (Int.ofNat (hv * 60 + mv))
    | _, _ => none
  | _ => none

/-- Model of `datetime.fromisoformat` for the shapes the client feeds it:
`YYYY-MM-DD[THH:MM[:SS[.ffffff]]][±HH:MM]`. The Python datetime library
is an external collaborator (spec §1); this captures the formats used on
the wire. -/
def fromisoformat (s : String) : Option Dt := do
  let chars := s.toList
  let dateStr := chars.take 10
  let rest := chars.drop 10
  let (y, m, d) ← parseDatePart dateStr
  match rest with
  | [] => pure ⟨y, m, d, 0, 0, 0, 0, none⟩
  | sep :: t =>
    if sep == 'T' || sep == ' ' then
      match chSplit '+' t with
      | [timeStr, offStr] => do
        let (h, mi, sec, fr) ← parseTimePart timeStr
        let off ← parseOffsetPart offStr
        pure ⟨y, m, d, h, mi, sec, fr, some off⟩
      | [_] =>
        (match chSplit '-' t with
        | [timeStr, offStr] => do
          let (h, mi, sec, fr) ← parseTimePart timeStr
          let off ← parseOffsetPart offStr
          pure ⟨y, m, d, h, mi, sec, fr, some (-off)⟩
        | [timeStr] => do
          let (h, mi, sec, fr) ← parseTimePart timeStr
          pure ⟨y, m, d, h, mi, sec, fr, none⟩
        | _ => none)
      | _ => none
    else none

/-- Day number of a civil date (days since 1970-01-01, proleptic Gregorian);
standard civil-from-days inverse used for `datetime` instant comparison. -/
def civilToDays (y m d : Nat) : Int :=
  let yi : Int := Int.ofNat y
  let y' : Int := if m <= 2 then yi - 1 else yi
  let era : Int := (if y' >= 0 then y' else y' - 399) / 400
  let yoe : Int := y' - era * 400
  let mp : Int := (Int.ofNat m + 9) % 12
  let doy : Int := (153 * mp + 2) / 5 + Int.ofNat d - 1
  let doe : Int := yoe * 365 + yoe / 4 - yoe / 100 + doy
  era * 146097 + doe - 719468

/-- UTC instant of a `Dt` in seconds since the epoch (naive values use
offset 0, matching the client's "assume UTC" normalization points). -/
def dtInstant (d : Dt) : Int :=
  civilToDays d.year d.month d.day * 86400 +
    Int.ofNat (d.hour * 3600 + d.minute * 60 + d.second) - (d.tz.getD 0) * 60

/-- Strict `>` on aware datetimes (compare instants, microseconds break
ties), as Python compares two timezone-aware `datetime`s. -/
def dtGT (a b : Dt) : Bool :=
  dtInstant a > dtInstant b ||
    (dtInstant a == dtInstant b && a.micro > b.micro)

/-- Set `tzinfo` to UTC, as `.replace(tzinfo=timezone.utc)` does. -/
def dtReplaceUtc (d : Dt) : Dt :=
  { d with tz := some 0 }

end AGR

/-! ## Pydantic field validation combinators

The pydantic validation library itself is an external collaborator
(spec §1: "model validation library specifics" are out of scope); the
combinators below embed its documented lax-mode coercions for the field
types `models.py` uses. A combinator takes the looked-up field value
(`none` = key missing) and returns `Except` a validation error. -/

namespace AGR

/-- Parse an optional signed integer literal string (pydantic lax int). -/
def parseIntStr (s : String) : Option Int :=
  match s.toList with
  | '-' :: rest => (parseNatDigits rest).map (fun n => -(Int.ofNat n))
  | l => (parseNatDigits l).map Int.ofNat

/-- Python-style lower-casing (structural, so that the kernel can
evaluate it; `Char.toLower` maps only ASCII letters). -/
def pyLower (s : String) : String :=
  String.mk (s.toList.map Char.toLower)

/-- Pydantic lax-mode bool coercion of a present, non-null value. -/
def jBool : Json → Except String Bool
  | .bool b => .ok b
  | .int 0 => .ok false
  | .int 1 => .ok true
  | .str s =>
    let l := pyLower s
    if l == "true" || l == "t" || l == "yes" || l == "y" || l == "on" || l == "1" then
      .ok true
    else if l == "false" || l == "f" || l == "no" || l == "n" || l == "off" || l == "0" then
      .ok false
    else .error "bool"
  | _ => .error "bool"

/-- Validate `Optional[str]`. -/
def vOptStr : Option Json → Except String (Option String)
  | none => .ok none
  | some .null => .ok none
  | some (.str s) => .ok (some s)
  | some _ => .error "str"

/-- Validate a required `str` (e.g. `OntologyTerm.curie`). -/
def vReqStr : Option Json → Except String String
  | some (.str s) => .ok s
  | _ => .error "str required"

/-- Validate `Optional[int]`. -/
def vOptInt : Option Json → Except String (Option Int)
  | none => .ok none
  | some .null => .ok none
  | some (.int n) => .ok (some n)
  | some (.str s) =>
    match parseIntStr s with
    | some n => .ok (some n)
    | none => .error "int"
  | some _ => .error "int"

/-- Validate `Optional[bool]`. -/
def vOptBool : Option Json → Except String (Option Bool)
  | none => .ok none
  | some .null => .ok none
  | some j => (jBool j).map some

/-- Validate `bool = Field(False)`: missing defaults to `False`, a present
`None` is rejected. -/
def vBoolDefFalse : Option Json → Except String Bool
  | none => .ok false
  | some j => jBool j

/-- Validate `Optional[dict]`. -/
def vOptObj : Option Json → Except String (Option (List (String × Json)))
  | none => .ok none
  | some .null => .ok none
  | some (.obj kvs) => .ok (some kvs)
  | some _ => .error "dict"

/-- Validate every element of a list as a dict. -/
def jObjs : List Json → Except String (List (List (String × Json)))
  | [] => .ok []
  | .obj kvs :: rest => (jObjs rest).map (fun tl => kvs :: tl)
  | _ :: _ => .error "dict"

/-- Validate `Optional[List[dict]]`. -/
def vOptListObj : Option Json → Except String (Option (List (List (String × Json))))
  | none => .ok none
  | some .null => .ok none
  | some (.arr xs) => (jObjs xs).map some
  | some _ => .error "list"

/-- Validate every element of a list as a str. -/
def jStrs : List Json → Except String (List String)
  | [] => .ok []
  | .str s :: rest => (jStrs rest).map (fun tl => s :: tl)
  | _ :: _ => .error "str"

/-- Validate `Optional[List[str]]`. -/
def vOptListStr : Option Json → Except String (Option (List String))
  | none => .ok none
  | some .null => .ok none
  | some (.arr xs) => (jStrs xs).map some
  | some _ => .error "list"

/-- Validate `Optional[datetime]`: accepts a datetime object or an ISO
string. -/
def vOptDt : Option Json → Except String (Option Dt)
  | none => .ok none
  | some .null => .ok none
  | some (.dt d) => .ok (some d)
  | some (.str s) =>
    match fromisoformat s with
    | some d => .ok (some d)
    | none => .error "datetime"
  | some _ => .error "datetime"

/-- The `extract_user_id` `field_validator` on `created_by`/`updated_by`
(models.py lines 54-60): a dict is collapsed to
`v.get('uniqueId') or v.get('id') or str(v)`; anything else passes
through. -/
def extract_user_id : Json → Json
  | .obj kvs =>
    let a := (jGet kvs "uniqueId").getD .null
    if pyTruthy a then a
    else
      let b := (jGet kvs "id").getD .null
      if pyTruthy b then b
      else .str (pyRepr (.obj kvs))
  | v => v

/-- Validate `Optional[Any]` with the `extract_user_id` validator
(`mode='before'`). -/
def vOptUser : Option Json → Except String (Option Json)
  | none => .ok none
  | some .null => .ok none
  | some v => .ok (some (extract_user_id v))

/-! ### Serializers (`model_dump(by_alias=True)`, python mode) -/

/-- Serialize an optional string field. -/
def sOptStr : Option String → Json
  | none => .null
  | some s => .str s

/-- Serialize an optional int field. -/
def sOptInt : Option Int → Json
  | none => .null
  | some n => .int n

/-- Serialize an optional bool field. -/
def sOptBool : Option Bool → Json
  | none => .null
  | some b => .bool b

/-- Serialize an optional dict field. -/
def sOptObj : Option (List (String × Json)) → Json
  | none => .null
  | some kvs => .obj kvs

/-- Serialize an optional list-of-dict field. -/
def sOptListObj : Option (List (List (String × Json))) → Json
  | none => .null
  | some xs => .arr (xs.map (fun kvs => Json.obj kvs))

/-- Serialize an optional list-of-str field. -/
def sOptListStr : Option (List String) → Json
  | none => .null
  | some xs => .arr (xs.map (fun s => Json.str s))

/-- Serialize an optional datetime field (python mode keeps the object). -/
def sOptDt : Option Dt → Json
  | none => .null
  | some d => .dt d

/-- Serialize an `Optional[Any]` audit-user field. -/
def sOptUser : Option Json → Json
  | none => .null
  | some j => j

/-- Whether an optional audit-user value is *not* a dict and not a stored
`None` (a dict would be re-collapsed by `extract_user_id` on reparse; a
stored `None` value serializes to null, which reparses to the missing
field). Validation itself never produces either shape from a dict-free
value, but `Optional[Any]` admits them. -/
def userOk : Option Json → Bool
  | some (.obj _) => false
  | some .null => false
  | _ => true

/-! ### Field-level round-trip lemmas -/

@[simp] theorem exceptBind_ok {ε : Type u} {α β : Type v} (a : α)
    (f : α → Except ε β) : (Except.ok a >>= f : Except ε β) = f a := rfl

@[simp] theorem exceptMap_ok {ε : Type u} {α β : Type v} (a : α)
    (f : α → β) : (Except.map f (Except.ok a) : Except ε β) = Except.ok (f a) := rfl

@[simp] theorem vOptStr_roundtrip (v : Option String) :
    vOptStr (some (sOptStr v)) = .ok v := by cases v <;> rfl

@[simp] theorem vOptInt_roundtrip (v : Option Int) :
    vOptInt (some (sOptInt v)) = .ok v := by cases v <;> rfl

@[simp] theorem vOptBool_roundtrip (v : Option Bool) :
    vOptBool (some (sOptBool v)) = .ok v := by
  cases v with
  | none => rfl
  | some b => cases b <;> rfl

@[simp] theorem vBoolDefFalse_roundtrip (b : Bool) :
    vBoolDefFalse (some (Json.bool b)) = .ok b := by cases b <;> rfl

@[simp] theorem vReqStr_roundtrip (s : String) :
    vReqStr (some (Json.str s)) = .ok s := rfl

@[simp] theorem vOptObj_roundtrip (v : Option (List (String × Json))) :
    vOptObj (some (sOptObj v)) = .ok v := by cases v <;> rfl

@[simp] theorem jObjs_roundtrip (xs : List (List (String × Json))) :
    jObjs (xs.map (fun kvs => Json.obj kvs)) = .ok xs := by
  induction xs with
  | nil => rfl
  | cons hd tl ih => simp [jObjs, ih]

@[simp] theorem vOptListObj_roundtrip (v : Option (List (List (String × Json)))) :
    vOptListObj (some (sOptListObj v)) = .ok v := by
  cases v with
  | none => rfl
  | some xs => simp [sOptListObj, vOptListObj]

@[simp] theorem jStrs_roundtrip (xs : List String) :
    jStrs (xs.map (fun s => Json.str s)) = .ok xs := by
  induction xs with
  | nil => rfl
  | cons hd tl ih => simp [jStrs, ih]

@[simp] theorem vOptListStr_roundtrip (v : Option (List String)) :
    vOptListStr (some (sOptListStr v)) = .ok v := by
  cases v with
  | none => rfl
  | some xs => simp [sOptListStr, vOptListStr]

@[simp] theorem vOptDt_roundtrip (v : Option Dt) :
    vOptDt (some (sOptDt v)) = .ok v := by cases v <;> rfl

theorem vOptUser_roundtrip (v : Option Json) (h : userOk v = true) :
    vOptUser (some (sOptUser v)) = .ok v := by
  cases v with
  | none => rfl
  | some j => cases j <;> simp_all [userOk, vOptUser, sOptUser, extract_user_id]

end AGR

/-! ## Entity models (`models.py`)

Field order follows pydantic's model-resolution order: the
`AuditedObject` audit fields first, then the subclass's own fields.
`JObj` abbreviates the embedded `dict` payload type. -/

namespace AGR

/-- Embedded `dict` payload (nested name objects, providers, taxa, ...). -/
abbrev JObj := List (String × Json)

/-- The `Gene` pydantic model (models.py lines 66-82, inheriting
`AuditedObject`, lines 46-63). -/
structure Gene where
  created_by : Option Json
  date_created : Option Dt
  updated_by : Option Json
  date_updated : Option Dt
  curie : Option String
  primary_external_id : Option String
  gene_symbol : Option JObj
  gene_full_name : Option JObj
  gene_systematic_name : Option JObj
  gene_synonyms : Option (List JObj)
  gene_secondary_ids : Option (List JObj)
  gene_type : Option JObj
  data_provider : Option JObj
  taxon : Option JObj
  obsolete : Bool

/-- Validation of the `Gene` fields from the already-looked-up values. -/
def parseGeneFields (cby dcr uby dup cur pid sym fnm sys syn sec typ dpv tax obs :
    Option Json) : Except String Gene := do
  let created_by ← vOptUser cby
  let date_created ← vOptDt dcr
  let updated_by ← vOptUser uby
  let date_updated ← vOptDt dup
  let curie ← vOptStr cur
  let primary_external_id ← vOptStr pid
  let gene_symbol ← vOptObj sym
  let gene_full_name ← vOptObj fnm
  let gene_systematic_name ← vOptObj sys
  let gene_synonyms ← vOptListObj syn
  let gene_secondary_ids ← vOptListObj sec
  let gene_type ← vOptObj typ
  let data_provider ← vOptObj dpv
  let taxon ← vOptObj tax
  let obsolete ← vBoolDefFalse obs
  pure ⟨created_by, date_created, updated_by, date_updated, curie,
    primary_external_id, gene_symbol, gene_full_name, gene_systematic_name,
    gene_synonyms, gene_secondary_ids, gene_type, data_provider, taxon,
    obsolete⟩

/-- `Gene(**data)`: construct a `Gene` from a wire mapping, consulting the
camelCase alias first and the snake_case field name second
(`populate_by_name = True`). A non-mapping is not a valid keyword
expansion. -/
def parseGene : Json → Except String Gene
  | .obj kvs =>
    parseGeneFields (jGetA kvs "createdBy" "created_by")
      (jGetA kvs "dateCreated" "date_created")
      (jGetA kvs "updatedBy" "updated_by")
      (jGetA kvs "dateUpdated" "date_updated")
      (jGetA kvs "curie" "curie")
      (jGetA kvs "primaryExternalId" "primary_external_id")
      (jGetA kvs "geneSymbol" "gene_symbol")
      (jGetA kvs "geneFullName" "gene_full_name")
      (jGetA kvs "geneSystematicName" "gene_systematic_name")
      (jGetA kvs "geneSynonyms" "gene_synonyms")
      (jGetA kvs "geneSecondaryIds" "gene_secondary_ids")
      (jGetA kvs "geneType" "gene_type")
      (jGetA kvs "dataProvider" "data_provider")
      (jGetA kvs "taxon" "taxon")
      (jGetA kvs "obsolete" "obsolete")
  | _ => .error "not a mapping"

/-- `gene.model_dump(by_alias=True)` in python mode. -/
def serializeGene (g : Gene) : Json :=
  .obj [("createdBy", sOptUser g.created_by),
    ("dateCreated", sOptDt g.date_created),
    ("updatedBy", sOptUser g.updated_by),
    ("dateUpdated", sOptDt g.date_updated),
    ("curie", sOptStr g.curie),
    ("primaryExternalId", sOptStr g.primary_external_id),
    ("geneSymbol", sOptObj g.gene_symbol),
    ("geneFullName", sOptObj g.gene_full_name),
    ("geneSystematicName", sOptObj g.gene_systematic_name),
    ("geneSynonyms", sOptListObj g.gene_synonyms),
    ("geneSecondaryIds", sOptListObj g.gene_secondary_ids),
    ("geneType", sOptObj g.gene_type),
    ("dataProvider", sOptObj g.data_provider),
    ("taxon", sOptObj g.taxon),
    ("obsolete", Json.bool g.obsolete)]

/-- Round trip for `Gene`, conditional on the audit-user fields not being
stored dicts (see `userOk`). -/
theorem parseGene_serializeGene (g : Gene) (h1 : userOk g.created_by = true)
    (h2 : userOk g.updated_by = true) :
    parseGene (serializeGene g) = .ok g := by
  have e : parseGene (serializeGene g) =
      parseGeneFields (some (sOptUser g.created_by)) (some (sOptDt g.date_created))
        (some (sOptUser g.updated_by)) (some (sOptDt g.date_updated))
        (some (sOptStr g.curie)) (some (sOptStr g.primary_external_id))
        (some (sOptObj g.gene_symbol)) (some (sOptObj g.gene_full_name))
        (some (sOptObj g.gene_systematic_name)) (some (sOptListObj g.gene_synonyms))
        (some (sOptListObj g.gene_secondary_ids)) (some (sOptObj g.gene_type))
        (some (sOptObj g.data_provider)) (some (sOptObj g.taxon))
        (some (Json.bool g.obsolete)) := rfl
  rw [e]
  simp [parseGeneFields, vOptUser_roundtrip _ h1, vOptUser_roundtrip _ h2]

/-- The `OntologyTerm` pydantic model (models.py lines 101-118); `curie` is
the only required field. -/
structure OntologyTerm where
  curie : String
  name : Option String
  definition : Option String
  definition_urls : Option (List String)
  synonyms : Option (List JObj)
  cross_references : Option (List JObj)
  ancestors : Option (List String)
  descendants : Option (List String)
  child_count : Option Int
  descendant_count : Option Int
  obsolete : Bool
  namespace_ : Option String

/-- Validation of the `OntologyTerm` fields from looked-up values. -/
def parseOntologyTermFields (cur nam dfn dfu syn xrf anc dsc cct dct obs nsp :
    Option Json) : Except String OntologyTerm := do
  let curie ← vReqStr cur
  let name ← vOptStr nam
  let definition ← vOptStr dfn
  let definition_urls ← vOptListStr dfu
  let synonyms ← vOptListObj syn
  let cross_references ← vOptListObj xrf
  let ancestors ← vOptListStr anc
  let descendants ← vOptListStr dsc
  let child_count ← vOptInt cct
  let descendant_count ← vOptInt dct
  let obsolete ← vBoolDefFalse obs
  let namespace_ ← vOptStr nsp
  pure ⟨curie, name, definition, definition_urls, synonyms, cross_references,
    ancestors, descendants, child_count, descendant_count, obsolete, namespace_⟩

/-- `OntologyTerm(**data)`. -/
def parseOntologyTerm : Json → Except String OntologyTerm
  | .obj kvs =>
    parseOntologyTermFields (jGetA kvs "curie" "curie")
      (jGetA kvs "name" "name")
      (jGetA kvs "definition" "definition")
      (jGetA kvs "definitionUrls" "definition_urls")
      (jGetA kvs "synonyms" "synonyms")
      (jGetA kvs "crossReferences" "cross_references")
      (jGetA kvs "ancestors" "ancestors")
      (jGetA kvs "descendants" "descendants")
      (jGetA kvs "childCount" "child_count")
      (jGetA kvs "descendantCount" "descendant_count")
      (jGetA kvs "obsolete" "obsolete")
      (jGetA kvs "namespace" "namespace")
  | _ => .error "not a mapping"

/-- `term.model_dump(by_alias=True)` in python mode. -/
def serializeOntologyTerm (t : OntologyTerm) : Json :=
  .obj [("curie", Json.str t.curie),
    ("name", sOptStr t.name),
    ("definition", sOptStr t.definition),
    ("definitionUrls", sOptListStr t.definition_urls),
    ("synonyms", sOptListObj t.synonyms),
    ("crossReferences", sOptListObj t.cross_references),
    ("ancestors", sOptListStr t.ancestors),
    ("descendants", sOptListStr t.descendants),
    ("childCount", sOptInt t.child_count),
    ("descendantCount", sOptInt t.descendant_count),
    ("obsolete", Json.bool t.obsolete),
    ("namespace", sOptStr t.namespace_)]

/-- Round trip for `OntologyTerm` (unconditional: no audit-user fields). -/
theorem parseOntologyTerm_serialize (t : OntologyTerm) :
    parseOntologyTerm (serializeOntologyTerm t) = .ok t := by
  have e : parseOntologyTerm (serializeOntologyTerm t) =
      parseOntologyTermFields (some (Json.str t.curie)) (some (sOptStr t.name))
        (some (sOptStr t.definition)) (some (sOptListStr t.definition_urls))
        (some (sOptListObj t.synonyms)) (some (sOptListObj t.cross_references))
        (some (sOptListStr t.ancestors)) (some (sOptListStr t.descendants))
        (some (sOptInt t.child_count)) (some (sOptInt t.descendant_count))
        (some (Json.bool t.obsolete)) (some (sOptStr t.namespace_)) := rfl
  rw [e]
  simp [parseOntologyTermFields]

end AGR

namespace AGR

/-- The `Species` pydantic model (models.py lines 85-98, inheriting
`AuditedObject`). -/
structure Species where
  created_by : Option Json
  date_created : Option Dt
  updated_by : Option Json
  date_updated : Option Dt
  curie : Option String
  taxon : Option JObj
  abbreviation : Option String
  display_name : Option String
  full_name : Option String
  genome_assembly : Option String
  common_names : Option (List String)
  phylogenetic_order : Option Int

/-- Validation of the `Species` fields from looked-up values. -/
def parseSpeciesFields (cby dcr uby dup cur tax abb dnm fnm gas cnm pho :
    Option Json) : Except String Species := do
  let created_by ← vOptUser cby
  let date_created ← vOptDt dcr
  let updated_by ← vOptUser uby
  let date_updated ← vOptDt dup
  let curie ← vOptStr cur
  let taxon ← vOptObj tax
  let abbreviation ← vOptStr abb
  let display_name ← vOptStr dnm
  let full_name ← vOptStr fnm
  let genome_assembly ← vOptStr gas
  let common_names ← vOptListStr cnm
  let phylogenetic_order ← vOptInt pho
  pure ⟨created_by, date_created, updated_by, date_updated, curie, taxon,
    abbreviation, display_name, full_name, genome_assembly, common_names,
    phylogenetic_order⟩

/-- `Species(**data)`. -/
def parseSpecies : Json → Except String Species
  | .obj kvs =>
    parseSpeciesFields (jGetA kvs "createdBy" "created_by")
      (jGetA kvs "dateCreated" "date_created")
      (jGetA kvs "updatedBy" "updated_by")
      (jGetA kvs "dateUpdated" "date_updated")
      (jGetA kvs "curie" "curie")
      (jGetA kvs "taxon" "taxon")
      (jGetA kvs "abbreviation" "abbreviation")
      (jGetA kvs "displayName" "display_name")
      (jGetA kvs "fullName" "full_name")
      (jGetA kvs "genomeAssembly" "genome_assembly")
      (jGetA kvs "commonNames" "common_names")
      (jGetA kvs "phylogeneticOrder" "phylogenetic_order")
  | _ => .error "not a mapping"

/-- `species.model_dump(by_alias=True)` in python mode. -/
def serializeSpecies (s : Species) : Json :=
  .obj [("createdBy", sOptUser s.created_by),
    ("dateCreated", sOptDt s.date_created),
    ("updatedBy", sOptUser s.updated_by),
    ("dateUpdated", sOptDt s.date_updated),
    ("curie", sOptStr s.curie),
    ("taxon", sOptObj s.taxon),
    ("abbreviation", sOptStr s.abbreviation),
    ("displayName", sOptStr s.display_name),
    ("fullName", sOptStr s.full_name),
    ("genomeAssembly", sOptStr s.genome_assembly),
    ("commonNames", sOptListStr s.common_names),
    ("phylogeneticOrder", sOptInt s.phylogenetic_order)]

/-- Round trip for `Species`, conditional on the audit-user fields. -/
theorem parseSpecies_serializeSpecies (s : Species)
    (h1 : userOk s.created_by = true) (h2 : userOk s.updated_by = true) :
    parseSpecies (serializeSpecies s) = .ok s := by
  have e : parseSpecies (serializeSpecies s) =
      parseSpeciesFields (some (sOptUser s.created_by)) (some (sOptDt s.date_created))
        (some (sOptUser s.updated_by)) (some (sOptDt s.date_updated))
        (some (sOptStr s.curie)) (some (sOptObj s.taxon))
        (some (sOptStr s.abbreviation)) (some (sOptStr s.display_name))
        (some (sOptStr s.full_name)) (some (sOptStr s.genome_assembly))
        (some (sOptListStr s.common_names)) (some (sOptInt s.phylogenetic_order)) := rfl
  rw [e]
  simp [parseSpeciesFields, vOptUser_roundtrip _ h1, vOptUser_roundtrip _ h2]

/-- The `ExpressionAnnotation` pydantic model (models.py lines 121-164);
rendered here as `ExpressionAnnot` (see the naming note at the top). -/
structure ExpressionAnnot where
  curie : Option String
  expression_annot_subject : Option JObj
  expression_pattern : Option JObj
  when_expressed_stage_name : Option String
  where_expressed_statement : Option String
  single_reference : Option JObj
  negated : Option Bool
  uncertain : Option Bool
  expression_qualifiers : Option (List String)
  related_notes : Option (List JObj)

/-- Validation of the `ExpressionAnnotation` fields from looked-up
values. -/
def parseExprAnnotFields (cur sub pat whn whr ref neg unc qua ntz :
    Option Json) : Except String ExpressionAnnot := do
  let curie ← vOptStr cur
  let expression_annot_subject ← vOptObj sub
  let expression_pattern ← vOptObj pat
  let when_expressed_stage_name ← vOptStr whn
  let where_expressed_statement ← vOptStr whr
  let single_reference ← vOptObj ref
  let negated ← vOptBool neg
  let uncertain ← vOptBool unc
  let expression_qualifiers ← vOptListStr qua
  let related_notes ← vOptListObj ntz
  pure ⟨curie, expression_annot_subject, expression_pattern,
    when_expressed_stage_name, where_expressed_statement, single_reference,
    negated, uncertain, expression_qualifiers, related_notes⟩

/-- `ExpressionAnnotation(**data)`. -/
def parseExprAnnot : Json → Except String ExpressionAnnot
  | .obj kvs =>
    parseExprAnnotFields (jGetA kvs "curie" "curie")
      (jGetA kvs "expressionAnnotationSubject" "expression_annotation_subject")
      (jGetA kvs "expressionPattern" "expression_pattern")
      (jGetA kvs "whenExpressedStageName" "when_expressed_stage_name")
      (jGetA kvs "whereExpressedStatement" "where_expressed_statement")
      (jGetA kvs "singleReference" "single_reference")
      (jGetA kvs "negated" "negated")
      (jGetA kvs "uncertain" "uncertain")
      (jGetA kvs "expressionQualifiers" "expression_qualifiers")
      (jGetA kvs "relatedNotes" "related_notes")
  | _ => .error "not a mapping"

/-- `annotation.model_dump(by_alias=True)` in python mode. -/
def serializeExprAnnot (a : ExpressionAnnot) : Json :=
  .obj [("curie", sOptStr a.curie),
    ("expressionAnnotationSubject", sOptObj a.expression_annot_subject),
    ("expressionPattern", sOptObj a.expression_pattern),
    ("whenExpressedStageName", sOptStr a.when_expressed_stage_name),
    ("whereExpressedStatement", sOptStr a.where_expressed_statement),
    ("singleReference", sOptObj a.single_reference),
    ("negated", sOptBool a.negated),
    ("uncertain", sOptBool a.uncertain),
    ("expressionQualifiers", sOptListStr a.expression_qualifiers),
    ("relatedNotes", sOptListObj a.related_notes)]

/-- Round trip for `ExpressionAnnotation` (unconditional). -/
theorem parseExprAnnot_serialize (a : ExpressionAnnot) :
    parseExprAnnot (serializeExprAnnot a) = .ok a := by
  have e : parseExprAnnot (serializeExprAnnot a) =
      parseExprAnnotFields (some (sOptStr a.curie))
        (some (sOptObj a.expression_annot_subject))
        (some (sOptObj a.expression_pattern))
        (some (sOptStr a.when_expressed_stage_name))
        (some (sOptStr a.where_expressed_statement))
        (some (sOptObj a.single_reference)) (some (sOptBool a.negated))
        (some (sOptBool a.uncertain)) (some (sOptListStr a.expression_qualifiers))
        (some (sOptListObj a.related_notes)) := rfl
  rw [e]
  simp [parseExprAnnotFields]

/-- The `Allele` pydantic model (models.py lines 167-192, inheriting
`AuditedObject`). -/
structure Allele where
  created_by : Option Json
  date_created : Option Dt
  updated_by : Option Json
  date_updated : Option Dt
  curie : Option String
  primary_external_id : Option String
  allele_symbol : Option JObj
  allele_full_name : Option JObj
  allele_synonyms : Option (List JObj)
  references : Option (List JObj)
  laboratory_of_origin : Option String
  is_extinct : Option Bool
  is_extrachromosomal : Option Bool
  is_integrated : Option Bool
  data_provider : Option JObj
  taxon : Option JObj
  obsolete : Bool
  gene_associations : Option (List JObj)
  protein_associations : Option (List JObj)
  transcript_associations : Option (List JObj)
  variant_associations : Option (List JObj)
  cell_line_associations : Option (List JObj)
  image_associations : Option (List JObj)
  construct_associations : Option (List JObj)

/-- Validation of the `Allele` fields from looked-up values. -/
def parseAlleleFields (cby dcr uby dup cur pid sym fnm syn ref lab ext exc itg
    dpv tax obs gas pas tas vas cas ias coa : Option Json) :
    Except String Allele := do
  let created_by ← vOptUser cby
  let date_created ← vOptDt dcr
  let updated_by ← vOptUser uby
  let date_updated ← vOptDt dup
  let curie ← vOptStr cur
  let primary_external_id ← vOptStr pid
  let allele_symbol ← vOptObj sym
  let allele_full_name ← vOptObj fnm
  let allele_synonyms ← vOptListObj syn
  let references ← vOptListObj ref
  let laboratory_of_origin ← vOptStr lab
  let is_extinct ← vOptBool ext
  let is_extrachromosomal ← vOptBool exc
  let is_integrated ← vOptBool itg
  let data_provider ← vOptObj dpv
  let taxon ← vOptObj tax
  let obsolete ← vBoolDefFalse obs
  let gene_associations ← vOptListObj gas
  let protein_associations ← vOptListObj pas
  let transcript_associations ← vOptListObj tas
  let variant_associations ← vOptListObj vas
  let cell_line_associations ← vOptListObj cas
  let image_associations ← vOptListObj ias
  let construct_associations ← vOptListObj coa
  pure ⟨created_by, date_created, updated_by, date_updated, curie,
    primary_external_id, allele_symbol, allele_full_name, allele_synonyms,
    references, laboratory_of_origin, is_extinct, is_extrachromosomal,
    is_integrated, data_provider, taxon, obsolete, gene_associations,
    protein_associations, transcript_associations, variant_associations,
    cell_line_associations, image_associations, construct_associations⟩

/-- `Allele(**data)`. -/
def parseAllele : Json → Except String Allele
  | .obj kvs =>
    parseAlleleFields (jGetA kvs "createdBy" "created_by")
      (jGetA kvs "dateCreated" "date_created")
      (jGetA kvs "updatedBy" "updated_by")
      (jGetA kvs "dateUpdated" "date_updated")
      (jGetA kvs "curie" "curie")
      (jGetA kvs "primaryExternalId" "primary_external_id")
      (jGetA kvs "alleleSymbol" "allele_symbol")
      (jGetA kvs "alleleFullName" "allele_full_name")
      (jGetA kvs "alleleSynonyms" "allele_synonyms")
      (jGetA kvs "references" "references")
      (jGetA kvs "laboratoryOfOrigin" "laboratory_of_origin")
      (jGetA kvs "isExtinct" "is_extinct")
      (jGetA kvs "isExtrachromosomal" "is_extrachromosomal")
      (jGetA kvs "isIntegrated" "is_integrated")
      (jGetA kvs "dataProvider" "data_provider")
      (jGetA kvs "taxon" "taxon")
      (jGetA kvs "obsolete" "obsolete")
      (jGetA kvs "geneAssociations" "gene_associations")
      (jGetA kvs "proteinAssociations" "protein_associations")
      (jGetA kvs "transcriptAssociations" "transcript_associations")
      (jGetA kvs "variantAssociations" "variant_associations")
      (jGetA kvs "cellLineAssociations" "cell_line_associations")
      (jGetA kvs "imageAssociations" "image_associations")
      (jGetA kvs "constructAssociations" "construct_associations")
  | _ => .error "not a mapping"

/-- `allele.model_dump(by_alias=True)` in python mode. -/
def serializeAllele (a : Allele) : Json :=
  .obj [("createdBy", sOptUser a.created_by),
    ("dateCreated", sOptDt a.date_created),
    ("updatedBy", sOptUser a.updated_by),
    ("dateUpdated", sOptDt a.date_updated),
    ("curie", sOptStr a.curie),
    ("primaryExternalId", sOptStr a.primary_external_id),
    ("alleleSymbol", sOptObj a.allele_symbol),
    ("alleleFullName", sOptObj a.allele_full_name),
    ("alleleSynonyms", sOptListObj a.allele_synonyms),
    ("references", sOptListObj a.references),
    ("laboratoryOfOrigin", sOptStr a.laboratory_of_origin),
    ("isExtinct", sOptBool a.is_extinct),
    ("isExtrachromosomal", sOptBool a.is_extrachromosomal),
    ("isIntegrated", sOptBool a.is_integrated),
    ("dataProvider", sOptObj a.data_provider),
    ("taxon", sOptObj a.taxon),
    ("obsolete", Json.bool a.obsolete),
    ("geneAssociations", sOptListObj a.gene_associations),
    ("proteinAssociations", sOptListObj a.protein_associations),
    ("transcriptAssociations", sOptListObj a.transcript_associations),
    ("variantAssociations", sOptListObj a.variant_associations),
    ("cellLineAssociations", sOptListObj a.cell_line_associations),
    ("imageAssociations", sOptListObj a.image_associations),
    ("constructAssociations", sOptListObj a.construct_associations)]

/-- Round trip for `Allele`, conditional on the audit-user fields. -/
theorem parseAllele_serializeAllele (a : Allele)
    (h1 : userOk a.created_by = true) (h2 : userOk a.updated_by = true) :
    parseAllele (serializeAllele a) = .ok a := by
  have e : parseAllele (serializeAllele a) =
      parseAlleleFields (some (sOptUser a.created_by)) (some (sOptDt a.date_created))
        (some (sOptUser a.updated_by)) (some (sOptDt a.date_updated))
        (some (sOptStr a.curie)) (some (sOptStr a.primary_external_id))
        (some (sOptObj a.allele_symbol)) (some (sOptObj a.allele_full_name))
        (some (sOptListObj a.allele_synonyms)) (some (sOptListObj a.references))
        (some (sOptStr a.laboratory_of_origin)) (some (sOptBool a.is_extinct))
        (some (sOptBool a.is_extrachromosomal)) (some (sOptBool a.is_integrated))
        (some (sOptObj a.data_provider)) (some (sOptObj a.taxon))
        (some (Json.bool a.obsolete)) (some (sOptListObj a.gene_associations))
        (some (sOptListObj a.protein_associations))
        (some (sOptListObj a.transcript_associations))
        (some (sOptListObj a.variant_associations))
        (some (sOptListObj a.cell_line_associations))
        (some (sOptListObj a.image_associations))
        (some (sOptListObj a.construct_associations)) := rfl
  rw [e]
  simp [parseAlleleFields, vOptUser_roundtrip _ h1, vOptUser_roundtrip _ h2]

end AGR

/-! ## Client request layer (`client.py`)

The network itself is external; a call is modelled as a function of the
`HttpOutcome` the underlying `urllib.request.urlopen` call produced.
Python exception classes are embedded as `ClientErr` constructors.
`exceptions.py` is not among the available sources; the spec's error
taxonomy (§7: an authentication error distinct from the generic API
error) is used for the constructor split, and the embedding does not
rely on any subclass relation between the two. -/

namespace AGR

/-- Embedded Python exception classes raised by the client:
`AGRAPIError`, `AGRAuthenticationError`, pydantic `ValidationError`, and
raw `TypeError`/`ValueError` escaping a method. -/
inductive ClientErr where
  | api (msg : String)
  | auth (msg : String)
  | validationErr (msg : String)
  | typeErr (msg : String)
  | valueErr (msg : String)

/-- Outcome of one `urllib.request.urlopen` round trip: a response with a
status code and decoded JSON body, an `HTTPError` with code, reason and
error body, or another exception. -/
inductive HttpOutcome where
  | success (code : Nat) (body : Json)
  | httpError (code : Nat) (reason : String) (errBody : String)
  | exc (msg : String)

/-- `AGRCurationAPIClient._make_request` (client.py lines 184-233) as a
function of the round-trip outcome. A 200 response is decoded and coerced
with `dict(...)`, so a non-object body raises; the `AGRAPIError` raised
for a non-200 status inside the `try` block is re-wrapped by the generic
`except Exception` handler. -/
def make_request : HttpOutcome → Except ClientErr JObj
  | .success code body =>
    if code = 200 then
      match body with
      | .obj kvs => .ok kvs
      | _ => .error (.api "Request failed: cannot convert response to dict")
    else
      .error (.api ("Request failed: Request failed with status: " ++ toString code))
  | .httpError code reason _ =>
    if code = 401 then .error (.auth "Authentication failed")
    else .error (.api ("HTTP error " ++ toString code ++ ": " ++ reason))
  | .exc msg => .error (.api ("Request failed: " ++ msg))

/-- Python dict assignment `d[k] = v`: replace in place, else append. -/
def setKey (kvs : JObj) (k : String) (v : Json) : JObj :=
  match kvs with
  | [] => [(k, v)]
  | (k', v') :: rest =>
    if k' == k then (k', v) :: rest else (k', v') :: setKey rest k v

/-- `AGRCurationAPIClient._apply_data_provider_filter` (client.py lines
78-100): on a truthy `data_provider`, install
`searchFilters.dataProviderFilter` with the given field path. -/
def apply_data_provider_filter (req : JObj) (data_provider : Option String)
    (field_name : String) : JObj :=
  match data_provider with
  | none => req
  | some dp =>
    if dp == "" then req
    else
      let sf : JObj :=
        match jGet req "searchFilters" with
        | some (.obj s) => s
        | _ => []
      setKey req "searchFilters" (.obj (setKey sf "dataProviderFilter"
        (.obj [(field_name, .obj [("queryString", .str dp),
          ("tokenOperator", .str "OR")])])))

/-- The `Union[str, datetime]` type of the `updated_after` parameter. -/
inductive UpdatedParam where
  | s (v : String)
  | d (v : Dt)

/-- Python truthiness of an `updated_after` value (`""` is falsy,
`datetime` objects are always truthy). -/
def uaTruthy : UpdatedParam → Bool
  | .s v => v != ""
  | .d _ => true

/-- `AGRCurationAPIClient._apply_date_sorting` (client.py lines 102-120):
on a truthy `updated_after`, install a descending `dbDateUpdated` sort. -/
def apply_date_sorting (req : JObj) (updated_after : Option UpdatedParam) : JObj :=
  match updated_after with
  | none => req
  | some ua =>
    if uaTruthy ua then
      setKey req "sortOrders" (.arr [.obj [("field", .str "dbDateUpdated"),
        ("order", .int (-1))]])
    else req

/-- Python `c in s` membership for a single character. -/
def chContains (s : String) (c : Char) : Bool :=
  s.toList.any (fun x => x == c)

/-- Python `s.replace('Z', '+00:00')` (single-character pattern). -/
def replaceZ (s : String) : String :=
  String.mk (s.toList.flatMap (fun x => if x == 'Z' then ['+', '0', '0', ':', '0', '0'] else [x]))

/-- Threshold normalization in `_filter_by_date` (client.py lines
141-154): a string containing `Z` or `+` is parsed as given (after the
`Z` → `+00:00` replacement); any other string is parsed and then has its
tzinfo overwritten with UTC; a naive datetime gets UTC attached; an aware
one is kept. A string `fromisoformat` rejects raises `ValueError`. -/
def filterThreshold : UpdatedParam → Except ClientErr Dt
  | .s v =>
    if chContains v 'Z' || chContains v '+' then
      match fromisoformat (replaceZ v) with
      | some d => .ok d
      | none => .error (.valueErr "Invalid isoformat string")
    else
      match fromisoformat v with
      | some d => .ok (dtReplaceUtc d)
      | none => .error (.valueErr "Invalid isoformat string")
  | .d v =>
    match v.tz with
    | none => .ok (dtReplaceUtc v)
    | some _ => .ok v

/-- Per-item date normalization in `_filter_by_date` (client.py lines
157-180): a falsy attribute value skips the item, a string is normalized
like the threshold, a datetime gets UTC attached when naive, and any
other type skips the item. Returns `none` when the item is dropped
before comparison, and raises on an unparsable string. -/
def itemDateOf (v : Json) : Except ClientErr (Option Dt) :=
  if !pyTruthy v then .ok none
  else
    match v with
    | .str s =>
      if chContains s 'Z' || chContains s '+' then
        match fromisoformat (replaceZ s) with
        | some d => .ok (some d)
        | none => .error (.valueErr "Invalid isoformat string")
      else
        match fromisoformat s with
        | some d => .ok (some (dtReplaceUtc d))
        | none => .error (.valueErr "Invalid isoformat string")
    | .dt d =>
      (match d.tz with
      | none => .ok (some (dtReplaceUtc d))
      | some _ => .ok (some d))
    | _ => .ok none

/-- The filtering loop of `_filter_by_date`, generic in the entity type
via its `getattr` table. -/
def filterByDateLoop (attr : α → String → Option Json) (date_field : String)
    (threshold : Dt) : List α → Except ClientErr (List α)
  | [] => .ok []
  | item :: rest => do
    let keepTail ← filterByDateLoop attr date_field threshold rest
    match attr item date_field with
    | none => pure keepTail
    | some v =>
      match ← itemDateOf v with
      | none => pure keepTail
      | some d => if dtGT d threshold then pure (item :: keepTail) else pure keepTail

/-- `AGRCurationAPIClient._filter_by_date` (client.py lines 122-182). The
Python `date_field` parameter defaults to `"dbDateUpdated"`; every caller
in `client.py` relies on that default, so the embedding passes it
explicitly at each call site. -/
def filter_by_date (attr : α → String → Option Json) (items : List α)
    (updated_after : Option UpdatedParam)
    (date_field : String) : Except ClientErr (List α) :=
  match updated_after with
  | none => .ok items
  | some ua =>
    if !uaTruthy ua then .ok items
    else do
      let threshold ← filterThreshold ua
      filterByDateLoop attr date_field threshold items

/-- Python `getattr` on a `Gene` instance: exactly the pydantic model's
field names resolve (note: `dbDateUpdated` is not among them); a `None`
field value is the falsy `Json.null`. -/
def getattrGene (g : Gene) : String → Option Json
  | "created_by" => some (sOptUser g.created_by)
  | "date_created" => some (sOptDt g.date_created)
  | "updated_by" => some (sOptUser g.updated_by)
  | "date_updated" => some (sOptDt g.date_updated)
  | "curie" => some (sOptStr g.curie)
  | "primary_external_id" => some (sOptStr g.primary_external_id)
  | "gene_symbol" => some (sOptObj g.gene_symbol)
  | "gene_full_name" => some (sOptObj g.gene_full_name)
  | "gene_systematic_name" => some (sOptObj g.gene_systematic_name)
  | "gene_synonyms" => some (sOptListObj g.gene_synonyms)
  | "gene_secondary_ids" => some (sOptListObj g.gene_secondary_ids)
  | "gene_type" => some (sOptObj g.gene_type)
  | "data_provider" => some (sOptObj g.data_provider)
  | "taxon" => some (sOptObj g.taxon)
  | "obsolete" => some (.bool g.obsolete)
  | _ => none

/-- Python `getattr` on an `Allele` instance. -/
def getattrAllele (a : Allele) : String → Option Json
  | "created_by" => some (sOptUser a.created_by)
  | "date_created" => some (sOptDt a.date_created)
  | "updated_by" => some (sOptUser a.updated_by)
  | "date_updated" => some (sOptDt a.date_updated)
  | "curie" => some (sOptStr a.curie)
  | "primary_external_id" => some (sOptStr a.primary_external_id)
  | "allele_symbol" => some (sOptObj a.allele_symbol)
  | "allele_full_name" => some (sOptObj a.allele_full_name)
  | "allele_synonyms" => some (sOptListObj a.allele_synonyms)
  | "references" => some (sOptListObj a.references)
  | "laboratory_of_origin" => some (sOptStr a.laboratory_of_origin)
  | "is_extinct" => some (sOptBool a.is_extinct)
  | "is_extrachromosomal" => some (sOptBool a.is_extrachromosomal)
  | "is_integrated" => some (sOptBool a.is_integrated)
  | "data_provider" => some (sOptObj a.data_provider)
  | "taxon" => some (sOptObj a.taxon)
  | "obsolete" => some (.bool a.obsolete)
  | "gene_associations" => some (sOptListObj a.gene_associations)
  | "protein_associations" => some (sOptListObj a.protein_associations)
  | "transcript_associations" => some (sOptListObj a.transcript_associations)
  | "variant_associations" => some (sOptListObj a.variant_associations)
  | "cell_line_associations" => some (sOptListObj a.cell_line_associations)
  | "image_associations" => some (sOptListObj a.image_associations)
  | "construct_associations" => some (sOptListObj a.construct_associations)
  | _ => none

/-- Python `getattr` on an `ExpressionAnnotation` instance. -/
def getattrExprAnnot (a : ExpressionAnnot) : String → Option Json
  | "curie" => some (sOptStr a.curie)
  | "expression_annotation_subject" => some (sOptObj a.expression_annot_subject)
  | "expression_pattern" => some (sOptObj a.expression_pattern)
  | "when_expressed_stage_name" => some (sOptStr a.when_expressed_stage_name)
  | "where_expressed_statement" => some (sOptStr a.where_expressed_statement)
  | "single_reference" => some (sOptObj a.single_reference)
  | "negated" => some (sOptBool a.negated)
  | "uncertain" => some (sOptBool a.uncertain)
  | "expression_qualifiers" => some (sOptListStr a.expression_qualifiers)
  | "related_notes" => some (sOptListObj a.related_notes)
  | _ => none

end AGR

namespace AGR

/-- Modelled from the spec: the `NCBITaxonTerm` pydantic model is imported
by `client.py` from `models.py` but is not among the available sources;
spec §3 describes it as an `OntologyTerm` specialization "carrying an
additional abbreviation/common-name pair". It is embedded as the
`OntologyTerm` fields plus those two optional fields, validated and
aliased the same way. -/
structure NCBITaxonTerm where
  curie : String
  name : Option String
  definition : Option String
  obsolete : Bool
  namespace_ : Option String
  abbreviation : Option String
  common_name : Option String

/-- Validation of the modelled `NCBITaxonTerm` fields. -/
def parseNCBITaxonTermFields (cur nam dfn obs nsp abb cnm : Option Json) :
    Except String NCBITaxonTerm := do
  let curie ← vReqStr cur
  let name ← vOptStr nam
  let definition ← vOptStr dfn
  let obsolete ← vBoolDefFalse obs
  let namespace_ ← vOptStr nsp
  let abbreviation ← vOptStr abb
  let common_name ← vOptStr cnm
  pure ⟨curie, name, definition, obsolete, namespace_, abbreviation, common_name⟩

/-- `NCBITaxonTerm(**data)` over the modelled field set. -/
def parseNCBITaxonTerm : Json → Except String NCBITaxonTerm
  | .obj kvs =>
    parseNCBITaxonTermFields (jGetA kvs "curie" "curie")
      (jGetA kvs "name" "name")
      (jGetA kvs "definition" "definition")
      (jGetA kvs "obsolete" "obsolete")
      (jGetA kvs "namespace" "namespace")
      (jGetA kvs "abbreviation" "abbreviation")
      (jGetA kvs "commonName" "common_name")
  | _ => .error "not a mapping"

/-- Python `getattr` on the modelled `NCBITaxonTerm` instance. -/
def getattrNCBITaxonTerm (t : NCBITaxonTerm) : String → Option Json
  | "curie" => some (.str t.curie)
  | "name" => some (sOptStr t.name)
  | "definition" => some (sOptStr t.definition)
  | "obsolete" => some (.bool t.obsolete)
  | "namespace" => some (sOptStr t.namespace_)
  | "abbreviation" => some (sOptStr t.abbreviation)
  | "common_name" => some (sOptStr t.common_name)
  | _ => none

/-- Modelled from the spec: the `AffectedGenomicModel` pydantic model is
imported by `client.py` from `models.py` but is not among the available
sources; spec §3 lists "identifier, full-name annotation, subtype,
species reference, data-provider reference, lists of associated
alleles/components/populations/reagents, obsolete flag". -/
structure AffectedGenomicModel where
  curie : Option String
  primary_external_id : Option String
  agm_full_name : Option JObj
  subtype : Option JObj
  taxon : Option JObj
  data_provider : Option JObj
  obsolete : Bool
  components : Option (List JObj)

/-- Validation of the modelled `AffectedGenomicModel` fields. -/
def parseAGMFields (cur pid fnm sub tax dpv obs cmp : Option Json) :
    Except String AffectedGenomicModel := do
  let curie ← vOptStr cur
  let primary_external_id ← vOptStr pid
  let agm_full_name ← vOptObj fnm
  let subtype ← vOptObj sub
  let taxon ← vOptObj tax
  let data_provider ← vOptObj dpv
  let obsolete ← vBoolDefFalse obs
  let components ← vOptListObj cmp
  pure ⟨curie, primary_external_id, agm_full_name, subtype, taxon,
    data_provider, obsolete, components⟩

/-- `AffectedGenomicModel(**data)` over the modelled field set. -/
def parseAGM : Json → Except String AffectedGenomicModel
  | .obj kvs =>
    parseAGMFields (jGetA kvs "curie" "curie")
      (jGetA kvs "primaryExternalId" "primary_external_id")
      (jGetA kvs "agmFullName" "agm_full_name")
      (jGetA kvs "subtype" "subtype")
      (jGetA kvs "taxon" "taxon")
      (jGetA kvs "dataProvider" "data_provider")
      (jGetA kvs "obsolete" "obsolete")
      (jGetA kvs "components" "components")
  | _ => .error "not a mapping"

/-- Python `getattr` on the modelled `AffectedGenomicModel` instance. -/
def getattrAGM (m : AffectedGenomicModel) : String → Option Json
  | "curie" => some (sOptStr m.curie)
  | "primary_external_id" => some (sOptStr m.primary_external_id)
  | "agm_full_name" => some (sOptObj m.agm_full_name)
  | "subtype" => some (sOptObj m.subtype)
  | "taxon" => some (sOptObj m.taxon)
  | "data_provider" => some (sOptObj m.data_provider)
  | "obsolete" => some (.bool m.obsolete)
  | "components" => some (sOptListObj m.components)
  | _ => none

/-- The per-record parsing loop shared by every page-fetching operation
(e.g. client.py lines 261-268): a record failing pydantic validation is
logged and skipped; constructing an entity from a non-mapping record
raises `TypeError` (`Entity(**record)`), which no handler catches. -/
def pageLoop (parse : Json → Except String α) : List Json → Except ClientErr (List α)
  | [] => .ok []
  | r :: rest =>
    match r with
    | .obj _ =>
      (match parse r with
      | .ok a => (pageLoop parse rest).map (fun tl => a :: tl)
      | .error _ => pageLoop parse rest)
    | _ => .error (.typeErr "argument is not a mapping")

/-- Extraction of the `results` array: absent key yields the empty list;
a present non-list value fails the `for` iteration. -/
def resultsLoop (parse : Json → Except String α) (kvs : JObj) :
    Except ClientErr (List α) :=
  match jGet kvs "results" with
  | none => .ok []
  | some (.arr records) => pageLoop parse records
  | some _ => .error (.typeErr "results is not iterable")

/-- `AGRCurationAPIClient.get_genes` (client.py lines 236-273) as a
function of the request parameters and the HTTP outcome. The first
component of the result is the request actually issued (URL and JSON
body); the second is the returned value or raised error. -/
def get_genes (data_provider : Option String) (limit page : Int)
    (updated_after : Option UpdatedParam) (outcome : HttpOutcome) :
    (String × JObj) × Except ClientErr (List Gene) :=
  let req₀ := apply_data_provider_filter [] data_provider "dataProvider.abbreviation"
  let req := apply_date_sorting req₀ updated_after
  let url := "gene/search?limit=" ++ toString limit ++ "&page=" ++ toString page
  let res : Except ClientErr (List Gene) := do
    let body ← make_request outcome
    let genes ← resultsLoop parseGene body
    filter_by_date getattrGene genes updated_after "dbDateUpdated"
  ((url, req), res)

/-- `AGRCurationAPIClient.get_species` (client.py lines 291-327). -/
def get_species (limit page : Int) (updated_after : Option UpdatedParam)
    (outcome : HttpOutcome) :
    (String × JObj) × Except ClientErr (List NCBITaxonTerm) :=
  let req := apply_date_sorting [] updated_after
  let url := "ncbitaxonterm/search?limit=" ++ toString limit ++ "&page=" ++ toString page
  let res : Except ClientErr (List NCBITaxonTerm) := do
    let body ← make_request outcome
    let species_list ← resultsLoop parseNCBITaxonTerm body
    filter_by_date getattrNCBITaxonTerm species_list updated_after "dbDateUpdated"
  ((url, req), res)

/-- `AGRCurationAPIClient.get_expression_annotations` (client.py lines
412-453); renamed per the naming note. `data_provider` is required here. -/
def get_expression_annots (data_provider : String) (limit page : Int)
    (updated_after : Option UpdatedParam) (outcome : HttpOutcome) :
    (String × JObj) × Except ClientErr (List ExpressionAnnot) :=
  let req₀ := apply_data_provider_filter [] (some data_provider)
    "expressionAnnotationSubject.dataProvider.abbreviation"
  let req := apply_date_sorting req₀ updated_after
  let url := "gene-expression-annotation/search?limit=" ++ toString limit ++
    "&page=" ++ toString page
  let res : Except ClientErr (List ExpressionAnnot) := do
    let body ← make_request outcome
    let anns ← resultsLoop parseExprAnnot body
    filter_by_date getattrExprAnnot anns updated_after "dbDateUpdated"
  ((url, req), res)

/-- `AGRCurationAPIClient.get_alleles` (client.py lines 456-508). The
`transgenes_only`/`data_provider` precondition check sits before any
request construction; on failure nothing is built or sent, which the
embedding renders by returning `none` as the request component. -/
def get_alleles (data_provider : Option String) (limit page : Int)
    (updated_after : Option UpdatedParam) (transgenes_only : Bool)
    (outcome : HttpOutcome) :
    Option (String × JObj) × Except ClientErr (List Allele) :=
  if transgenes_only && data_provider != some "WB" then
    (none, .error (.api "Not implemented: transgenes_only is only supported for WB data provider"))
  else
    let req₀ := apply_data_provider_filter [] data_provider "dataProvider.abbreviation"
    let req₁ := apply_date_sorting req₀ updated_after
    let url := "allele/search?limit=" ++ toString limit ++ "&page=" ++ toString page
    let req :=
      if transgenes_only && data_provider == some "WB" then
        let sf : JObj :=
          match jGet req₁ "searchFilters" with
          | some (.obj s) => s
          | _ => []
        setKey req₁ "searchFilters" (.obj (setKey sf "primaryExternalIdFilter"
          (.obj [("primaryExternalId", .obj [("queryString", .str "WB:WBTransgene"),
            ("tokenOperator", .str "OR")])])))
      else req₁
    let res : Except ClientErr (List Allele) := do
      let body ← make_request outcome
      let alleles ← resultsLoop parseAllele body
      filter_by_date getattrAllele alleles updated_after "dbDateUpdated"
    (some (url, req), res)

/-- `AGRCurationAPIClient.get_agms` (client.py lines 526-575). -/
def get_agms (data_provider : Option String) (subtype : Option String)
    (limit page : Int) (updated_after : Option UpdatedParam)
    (outcome : HttpOutcome) :
    (String × JObj) × Except ClientErr (List AffectedGenomicModel) :=
  let req₀ := apply_data_provider_filter [] data_provider "dataProvider.abbreviation"
  let req₁ :=
    match subtype with
    | some st =>
      if st == "" then req₀
      else
        let sf : JObj :=
          match jGet req₀ "searchFilters" with
          | some (.obj s) => s
          | _ => []
        setKey req₀ "searchFilters" (.obj (setKey sf "subtypeFilter"
          (.obj [("subtype.name", .obj [("queryString", .str st),
            ("tokenOperator", .str "OR")])])))
    | none => req₀
  let req := apply_date_sorting req₁ updated_after
  let url := "agm/search?limit=" ++ toString limit ++ "&page=" ++ toString page
  let res : Except ClientErr (List AffectedGenomicModel) := do
    let body ← make_request outcome
    let agms ← resultsLoop parseAGM body
    filter_by_date getattrAGM agms updated_after "dbDateUpdated"
  ((url, req), res)

/-- `AGRCurationAPIClient.get_gene` (client.py lines 275-288): a direct
GET whose `AGRAPIError` outcome is converted to `None`; a pydantic
`ValidationError` on the body, or an authentication error, propagates. -/
def get_gene (outcome : HttpOutcome) : Except ClientErr (Option Gene) :=
  match make_request outcome with
  | .ok body =>
    (match parseGene (.obj body) with
    | .ok g => .ok (some g)
    | .error m => .error (.validationErr m))
  | .error (.api _) => .ok none
  | .error e => .error e

/-- `AGRCurationAPIClient.get_allele` (client.py lines 510-523). -/
def get_allele (outcome : HttpOutcome) : Except ClientErr (Option Allele) :=
  match make_request outcome with
  | .ok body =>
    (match parseAllele (.obj body) with
    | .ok a => .ok (some a)
    | .error m => .error (.validationErr m))
  | .error (.api _) => .ok none
  | .error e => .error e

/-- `AGRCurationAPIClient.get_agm` (client.py lines 577-590). -/
def get_agm (outcome : HttpOutcome) : Except ClientErr (Option AffectedGenomicModel) :=
  match make_request outcome with
  | .ok body =>
    (match parseAGM (.obj body) with
    | .ok m => .ok (some m)
    | .error m => .error (.validationErr m))
  | .error (.api _) => .ok none
  | .error e => .error e

end AGR

namespace AGR

/-- The per-record loop of the ontology navigation endpoints (client.py
lines 377-386 and 400-409): a record whose `obsolete` entry is truthy is
silently dropped before parsing; a kept record failing validation is
logged and skipped; `term_data.get` on a non-dict record raises
(`AttributeError`, uncaught — rendered as `typeErr` here). -/
def ontologyLoop : List Json → Except ClientErr (List OntologyTerm)
  | [] => .ok []
  | r :: rest =>
    match r with
    | .obj kvs =>
      if pyTruthy ((jGet kvs "obsolete").getD (.bool false)) then
        ontologyLoop rest
      else
        (match parseOntologyTerm (.obj kvs) with
        | .ok t => (ontologyLoop rest).map (fun tl => t :: tl)
        | .error _ => ontologyLoop rest)
    | _ => .error (.typeErr "record has no attribute get")

/-- Extraction of the `entities` array (absent key yields the empty
list). -/
def entitiesLoop (kvs : JObj) : Except ClientErr (List OntologyTerm) :=
  match jGet kvs "entities" with
  | none => .ok []
  | some (.arr records) => ontologyLoop records
  | some _ => .error (.typeErr "entities is not iterable")

/-- `AGRCurationAPIClient.get_ontology_root_nodes` (client.py lines
366-386). -/
def get_ontology_root_nodes (node_type : String) (outcome : HttpOutcome) :
    String × Except ClientErr (List OntologyTerm) :=
  (node_type ++ "/rootNodes",
    match make_request outcome with
    | .ok kvs => entitiesLoop kvs
    | .error e => .error e)

/-- `AGRCurationAPIClient.get_ontology_node_children` (client.py lines
388-409). -/
def get_ontology_node_children (node_curie node_type : String)
    (outcome : HttpOutcome) : String × Except ClientErr (List OntologyTerm) :=
  (node_type ++ "/" ++ node_curie ++ "/children",
    match make_request outcome with
    | .ok kvs => entitiesLoop kvs
    | .error e => .error e)

/-- The error-message list built by `_make_graphql_request` (client.py
line 652): `err.get("message", str(err))` per error; a non-dict error
object makes `.get` raise, which the generic handler wraps into an
`AGRAPIError`. -/
def collectErrMsgs : List Json → Except ClientErr (List Json)
  | [] => .ok []
  | .obj ek :: rest =>
    (collectErrMsgs rest).map
      (fun tl => ((jGet ek "message").getD (.str (pyRepr (.obj ek)))) :: tl)
  | _ :: _ => .error (.api "GraphQL request failed: no attribute get")

/-- Check that every collected message is a string (otherwise
`'; '.join` raises `TypeError`, wrapped by the generic handler). -/
def strList : List Json → Option (List String)
  | [] => some []
  | .str s :: rest => (strList rest).map (fun tl => s :: tl)
  | _ :: _ => none

/-- `AGRCurationAPIClient._make_graphql_request` (client.py lines
613-668) as a function of the round-trip outcome. Presence of the
`errors` key (even with an empty array) raises an aggregated
`AGRAPIError`; otherwise `data` (defaulting to `{}`) is returned. Unlike
`_make_request`, the `except AGRAPIError: raise` arm re-raises the
non-200-status error unwrapped. -/
def make_graphql_request : HttpOutcome → Except ClientErr Json
  | .success code body =>
    if code = 200 then
      match body with
      | .obj kvs =>
        (match jGet kvs "errors" with
        | some (.arr es) =>
          (match collectErrMsgs es with
          | .error e => .error e
          | .ok msgs =>
            match strList msgs with
            | some strs =>
              .error (.api ("GraphQL errors: " ++ String.intercalate "; " strs))
            | none => .error (.api "GraphQL request failed: expected str instance"))
        | some _ => .error (.api "GraphQL request failed: errors not iterable")
        | none => .ok ((jGet kvs "data").getD (.obj [])))
      | _ => .error (.api "GraphQL request failed: response not an object")
    else
      .error (.api ("GraphQL request failed with status: " ++ toString code))
  | .httpError code reason errBody =>
    if code = 401 then .error (.auth "Authentication failed")
    else
      .error (.api ("HTTP error " ++ toString code ++ ": " ++ reason ++ ". " ++ errBody))
  | .exc msg => .error (.api ("GraphQL request failed: " ++ msg))

end AGR

/-! ## Database adapter (`db_methods.py`)

The SQL statements are rebuilt character-for-character from the Python
f-strings (triple-quoted, so they begin with a newline and carry the
source indentation). `limit`/`offset` are appended to the SQL text via
f-string interpolation (`str(sql_query) + f" LIMIT {limit}"`), while the
taxon curie / data-provider abbreviation travel in the bound-parameter
dictionary of `session.execute`. -/

namespace AGR

/-- The pagination suffix appended to every query: `" LIMIT {limit}"`
then `" OFFSET {offset}"`, each only when the argument is not `None`
(db_methods.py lines 124-128 and analogues). -/
def paginationSuffix (limit offset : Option Int) : String :=
  (match limit with
  | some l => " LIMIT " ++ toString l
  | none => "") ++
  (match offset with
  | some o => " OFFSET " ++ toString o
  | none => "")

/-- The conditional obsolete-exclusion WHERE fragment of
`get_genes_by_taxon` (db_methods.py lines 101-105), present exactly when
`include_obsolete` is false. -/
def genes_by_taxon_obsolete_filter : String :=
  "\n                slota.obsolete = false\n            AND\n                be.obsolete = false\n            AND"

/-- The f-string text of `get_genes_by_taxon` up to the interpolation
point of the obsolete filter. -/
def genes_by_taxon_sql_head : String :=
  "\n            SELECT\n                be.primaryexternalid as \"primaryExternalId\",\n                slota.displaytext as geneSymbol\n            FROM\n                biologicalentity be\n                JOIN slotannotation slota ON be.id = slota.singlegene_id\n                JOIN ontologyterm taxon ON be.taxon_id = taxon.id\n            WHERE\n                "

/-- The f-string text of `get_genes_by_taxon` after the interpolation
point of the obsolete filter. -/
def genes_by_taxon_sql_tail : String :=
  "\n                slota.slotannotationtype = \x27GeneSymbolSlotAnnotation\x27\n            AND\n                taxon.curie = :species_taxon\n            ORDER BY\n                be.primaryexternalid\n            "

/-- The SQL text `get_genes_by_taxon` builds before pagination
(db_methods.py lines 107-122): the f-string with the obsolete filter
interpolated into the WHERE clause. -/
def get_genes_by_taxon_base_sql (include_obsolete : Bool) : String :=
  genes_by_taxon_sql_head ++
  (if include_obsolete then "" else genes_by_taxon_obsolete_filter) ++
  genes_by_taxon_sql_tail

/-- The SQL text of `DatabaseMethods.get_genes_by_taxon` (db_methods.py
lines 107-128) for the given arguments: the build-time text plus the
appended pagination. -/
def get_genes_by_taxon_sql (include_obsolete : Bool) (limit offset : Option Int) :
    String :=
  get_genes_by_taxon_base_sql include_obsolete ++ paginationSuffix limit offset

/-- The statement `DatabaseMethods.get_genes_by_taxon` hands the driver:
SQL text and bound parameters (db_methods.py line 130). -/
def get_genes_by_taxon_query (taxon_curie : String) (limit offset : Option Int)
    (include_obsolete : Bool) : String × List (String × String) :=
  (get_genes_by_taxon_sql include_obsolete limit offset,
    [("species_taxon", taxon_curie)])

/-- The SQL text of `DatabaseMethods.get_genes_raw` (db_methods.py lines
177-201): the obsolete exclusion is unconditional here. -/
def get_genes_raw_sql (limit offset : Option Int) : String :=
  "\n            SELECT\n                be.primaryexternalid as geneId,\n                slota.displaytext as geneSymbol\n            FROM\n                biologicalentity be\n                JOIN slotannotation slota ON be.id = slota.singlegene_id\n                JOIN ontologyterm taxon ON be.taxon_id = taxon.id\n            WHERE\n                slota.obsolete = false\n            AND\n                be.obsolete = false\n            AND\n                slota.slotannotationtype = \x27GeneSymbolSlotAnnotation\x27\n            AND\n                taxon.curie = :species_taxon\n            ORDER BY\n                be.primaryexternalid\n            " ++
  paginationSuffix limit offset

/-- The statement of `DatabaseMethods.get_genes_raw`. -/
def get_genes_raw_query (taxon_curie : String) (limit offset : Option Int) :
    String × List (String × String) :=
  (get_genes_raw_sql limit offset, [("species_taxon", taxon_curie)])

/-- The SQL text of `DatabaseMethods.get_alleles_by_taxon` (db_methods.py
lines 236-261). -/
def get_alleles_by_taxon_sql (limit offset : Option Int) : String :=
  "\n            SELECT\n                be.primaryexternalid as \"primaryExternalId\",\n                slota.displaytext as alleleSymbol\n            FROM\n                biologicalentity be\n                JOIN allele a ON be.id = a.id\n                JOIN slotannotation slota ON a.id = slota.singleallele_id\n                JOIN ontologyterm taxon ON be.taxon_id = taxon.id\n            WHERE\n                slota.obsolete = false\n            AND\n                be.obsolete = false\n            AND\n                slota.slotannotationtype = \x27AlleleSymbolSlotAnnotation\x27\n            AND\n                taxon.curie = :taxon_curie\n            ORDER BY\n                be.primaryexternalid\n            " ++
  paginationSuffix limit offset

/-- The statement of `DatabaseMethods.get_alleles_by_taxon`. -/
def get_alleles_by_taxon_query (taxon_curie : String) (limit offset : Option Int) :
    String × List (String × String) :=
  (get_alleles_by_taxon_sql limit offset, [("taxon_curie", taxon_curie)])

/-- The SQL text of `DatabaseMethods.get_alleles_raw` (db_methods.py lines
310-335). -/
def get_alleles_raw_sql (limit offset : Option Int) : String :=
  "\n            SELECT\n                be.primaryexternalid as alleleId,\n                slota.displaytext as alleleSymbol\n            FROM\n                biologicalentity be\n                JOIN allele a ON be.id = a.id\n                JOIN slotannotation slota ON a.id = slota.singleallele_id\n                JOIN ontologyterm taxon ON be.taxon_id = taxon.id\n            WHERE\n                slota.obsolete = false\n            AND\n                be.obsolete = false\n            AND\n                slota.slotannotationtype = \x27AlleleSymbolSlotAnnotation\x27\n            AND\n                taxon.curie = :taxon_curie\n            ORDER BY\n                be.primaryexternalid\n            " ++
  paginationSuffix limit offset

/-- The statement of `DatabaseMethods.get_alleles_raw`. -/
def get_alleles_raw_query (taxon_curie : String) (limit offset : Option Int) :
    String × List (String × String) :=
  (get_alleles_raw_sql limit offset, [("taxon_curie", taxon_curie)])

/-- The SQL text of `DatabaseMethods.get_alleles_by_data_provider`
(db_methods.py lines 363-388). -/
def get_alleles_by_data_provider_sql (limit offset : Option Int) : String :=
  "\n            SELECT\n                be.primaryexternalid as \"primaryExternalId\",\n                slota.displaytext as alleleSymbol\n            FROM\n                biologicalentity be\n                JOIN allele a ON be.id = a.id\n                JOIN slotannotation slota ON a.id = slota.singleallele_id\n                JOIN dataprovider dp ON be.dataprovider_id = dp.id\n            WHERE\n                slota.obsolete = false\n            AND\n                be.obsolete = false\n            AND\n                slota.slotannotationtype = \x27AlleleSymbolSlotAnnotation\x27\n            AND\n                dp.abbreviation = :data_provider\n            ORDER BY\n                be.primaryexternalid\n            " ++
  paginationSuffix limit offset

/-- The statement of `DatabaseMethods.get_alleles_by_data_provider`. -/
def get_alleles_by_data_provider_query (data_provider : String)
    (limit offset : Option Int) : String × List (String × String) :=
  (get_alleles_by_data_provider_sql limit offset,
    [("data_provider", data_provider)])

/-- The per-row `Gene` mapping of `get_genes_by_taxon` (db_methods.py
lines 134-147). -/
def db_gene_of_row (r : String × String) : Json :=
  .obj [("primaryExternalId", .str r.1), ("curie", .str r.1),
    ("geneSymbol", .obj [("displayText", .str r.2), ("formatText", .str r.2)])]

/-- The fetched-row processing of `get_genes_by_taxon`: every row is
mapped to a `Gene`, rows failing validation are logged and skipped; no
row is dropped based on an obsolete flag (the rows carry none). -/
def db_rows_to_genes (rows : List (String × String)) : List Gene :=
  rows.filterMap (fun r => (parseGene (db_gene_of_row r)).toOption)

/-- `DatabaseMethods.get_genes_by_taxon` (db_methods.py lines 73-154):
the issued statement together with the entities produced from the
fetched rows. -/
def db_get_genes_by_taxon (taxon_curie : String) (limit offset : Option Int)
    (include_obsolete : Bool) (rows : List (String × String)) :
    (String × List (String × String)) × List Gene :=
  (get_genes_by_taxon_query taxon_curie limit offset include_obsolete,
    db_rows_to_genes rows)

/-- The Python signature defaults `limit=None, offset=None,
include_obsolete=False`; this wrapper is the call with all three
defaulted. -/
def db_get_genes_by_taxon_default (taxon_curie : String)
    (rows : List (String × String)) :
    (String × List (String × String)) × List Gene :=
  db_get_genes_by_taxon taxon_curie none none false rows

end AGR

/-! ## Routing / auto-detection layer

The `data_source`-aware client (accepting `data_source="db" | "graphql" |
"api"` and auto-detecting when unset) is exercised by the repository's
callers (`main.py`, `benchmark.py`, `main_demo.py`) but its source is
not among the files available here; the layer is therefore modelled from
the spec (§4.5, §8). -/

namespace AGR

/-- The three backends, in the spec's wording: database, GraphQL, REST
(the latter named `api` at the call sites). -/
inductive Backend where
  | db
  | graphql
  | api
deriving DecidableEq, Repr

/-- Outcome of one probe query against a backend: a row count, or a
failure (connection refused, etc.), which auto-detection swallows. -/
inductive ProbeResult where
  | rows (n : Nat)
  | failure

/-- Whether a probe outcome counts as a hit: it returned at least one
row. -/
def probeHit : ProbeResult → Bool
  | .rows n => decide (1 <= n)
  | .failure => false

/-- Modelled from the spec: auto-detection (spec §4.5 step 2 and the
failure-semantics paragraph) — "attempt, in fixed order, database →
GraphQL → REST, each with a minimal (`limit=1`) probe query; the first
backend that returns at least one row is adopted"; a failed probe is
swallowed and the next backend tried; "if all three fail, REST is the
guaranteed final fallback". The probe environment is a function from
backend and probe limit to outcome; detection probes each backend with
limit 1. -/
def detect_backend (probe : Backend → Nat → ProbeResult) : Backend :=
  if probeHit (probe .db 1) then .db
  else if probeHit (probe .graphql 1) then .graphql
  else if probeHit (probe .api 1) then .api
  else .api

/-- Modelled from the spec: the client's backend state — "the first
backend that returns at least one row is adopted as the client's default
for its remaining lifetime (cached decision, not re-probed per call)"
(spec §4.5). The cached choice is the only routing state. -/
structure RoutedClient where
  backend : Backend

/-- Modelled from the spec: client construction — an explicit
`data_source` is used directly with no probing (spec §4.5 step 1);
otherwise the backend is auto-detected once. -/
def construct_client (data_source : Option Backend)
    (probe : Backend → Nat → ProbeResult) : RoutedClient :=
  match data_source with
  | some b => ⟨b⟩
  | none => ⟨detect_backend probe⟩

/-- Modelled from the spec: the backend a logical call dispatches to —
the cached field, a function of construction alone (no probe argument:
calls cannot re-probe). -/
def dispatch_backend (c : RoutedClient) : Backend :=
  c.backend

/-- The sequence of backends used by `n` successive logical calls on one
client. -/
def call_trace (c : RoutedClient) : Nat → List Backend
  | 0 => []
  | n + 1 => dispatch_backend c :: call_trace c n

/-- A probe environment in which a backend is healthy (its probe returns
at least one row). -/
def healthy (probe : Backend → Nat → ProbeResult) (b : Backend) : Prop :=
  probeHit (probe b 1) = true

end AGR

/-! ## General helper lemmas -/

namespace AGR

theorem exceptBind_ok_iff {ε : Type u} {α β : Type v} {x : Except ε α}
    {f : α → Except ε β} {b : β} : (x >>= f) = .ok b ↔ ∃ a, x = .ok a ∧ f a = .ok b := by
  cases x with
  | ok a =>
    constructor
    · intro h; exact ⟨a, rfl, h⟩
    · rintro ⟨a', ha, hf⟩
      cases ha
      exact hf
  | error e =>
    constructor
    · intro h; exact absurd h (by simp [Bind.bind, Except.bind])
    · rintro ⟨a', ha, _⟩
      cases ha

theorem exceptMap_ok_iff {ε : Type u} {α β : Type v} {x : Except ε α}
    {f : α → β} {b : β} :
    Except.map f x = .ok b ↔ ∃ a, x = .ok a ∧ f a = b := by
  cases x with
  | ok a =>
    constructor
    · intro h
      refine ⟨a, rfl, ?_⟩
      simpa [Except.map] using h
    · rintro ⟨a', ha, hf⟩
      cases ha
      simp [Except.map, hf]
  | error e =>
    constructor
    · intro h; exact absurd h (by simp [Except.map])
    · rintro ⟨a', ha, _⟩
      cases ha

theorem jGetA_same (kvs : JObj) (k : String) : jGetA kvs k k = jGet kvs k := by
  unfold jGetA
  cases jGet kvs k <;> rfl

theorem jGet_setKey_self (kvs : JObj) (k : String) (v : Json) :
    jGet (setKey kvs k v) k = some v := by
  induction kvs with
  | nil => simp [setKey, jGet]
  | cons hd tl ih =>
    obtain ⟨k', v'⟩ := hd
    by_cases h : k' = k
    · subst h
      simp [setKey, jGet]
    · have hb : (k' == k) = false := by simpa using h
      simp only [setKey, hb, if_false, Bool.false_eq_true]
      unfold jGet at ih ⊢
      simp [List.find?, hb, ih]

/-- Whether a value is a dict (`Json.obj`). -/
def isObjB : Json → Bool
  | .obj _ => true
  | _ => false

/-- The sub-list of records that validate, in order (the content of a
successful page parse). -/
def parsedOk (parse : Json → Except String α) (records : List Json) : List α :=
  records.filterMap (fun r => (parse r).toOption)

theorem pageLoop_allObj (parse : Json → Except String α) (records : List Json)
    (h : records.all isObjB = true) :
    pageLoop parse records = .ok (parsedOk parse records) := by
  induction records with
  | nil => rfl
  | cons r rest ih =>
    simp only [List.all_cons, Bool.and_eq_true] at h
    obtain ⟨hr, hrest⟩ := h
    cases r with
    | obj kvs =>
      cases hp : parse (.obj kvs) with
      | ok a => simp [pageLoop, hp, ih hrest, parsedOk, Except.toOption]
      | error e => simp [pageLoop, hp, ih hrest, parsedOk, Except.toOption]
    | null => simp [isObjB] at hr
    | bool b => simp [isObjB] at hr
    | int n => simp [isObjB] at hr
    | str s => simp [isObjB] at hr
    | arr xs => simp [isObjB] at hr
    | dt d => simp [isObjB] at hr

theorem filterByDateLoop_gene_dead (thr : Dt) (items : List Gene) :
    filterByDateLoop getattrGene "dbDateUpdated" thr items = .ok [] := by
  induction items with
  | nil => rfl
  | cons g rest ih => simp [filterByDateLoop, ih, getattrGene]

/-- List-level starts-with check (used for substring occurrence). -/
def listStarts : List Char → List Char → Bool
  | [], _ => true
  | _ :: _, [] => false
  | a :: as, b :: bs => a == b && listStarts as bs

/-- List-level substring occurrence. -/
def listOccurs (pat : List Char) : List Char → Bool
  | [] => pat.isEmpty
  | l@(_ :: bs) => listStarts pat l || listOccurs pat bs

theorem listStarts_append (pat post : List Char) :
    listStarts pat (pat ++ post) = true := by
  induction pat with
  | nil => rfl
  | cons a as ih => simp [listStarts, ih]

theorem listOccurs_append (pre pat post : List Char) :
    listOccurs pat (pre ++ (pat ++ post)) = true := by
  induction pre with
  | nil =>
    cases pat with
    | nil => cases post <;> simp [listOccurs, List.isEmpty, listStarts]
    | cons a as =>
      simp only [List.nil_append, listOccurs, Bool.or_eq_true]
      exact Or.inl (listStarts_append (a :: as) post)
  | cons c cs ih =>
    cases pat with
    | nil => simp [listOccurs, listStarts]
    | cons a as =>
      simp only [List.cons_append, listOccurs, Bool.or_eq_true] at ih ⊢
      exact Or.inr ih

theorem strToList_append (a b : String) : (a ++ b).toList = a.toList ++ b.toList := rfl

/-- A string-level decomposition gives a list-level occurrence. -/
theorem listOccurs_of_decomposition {s pre pat post : String}
    (h : s = pre ++ pat ++ post) : listOccurs pat.toList s.toList = true := by
  subst h
  have e : (pre ++ pat ++ post).toList = pre.toList ++ (pat.toList ++ post.toList) := by
    simp [strToList_append, List.append_assoc]
  rw [e]
  exact listOccurs_append _ _ _

theorem call_trace_mk (b : Backend) (n : Nat) :
    call_trace ⟨b⟩ n = List.replicate n b := by
  induction n with
  | zero => rfl
  | succ m ih => simp [call_trace, dispatch_backend, ih, List.replicate_succ]

end AGR

namespace AGR

theorem vBoolDefFalse_of_falsy (v : Option Json)
    (h : pyTruthy (v.getD (.bool false)) = false) :
    ∀ b, vBoolDefFalse v = .ok b → b = false := by
  intro b hb
  cases v with
  | none =>
    simp only [vBoolDefFalse] at hb
    exact (Except.ok.inj hb).symm
  | some j =>
    cases j with
    | null =>
      have e : vBoolDefFalse (some Json.null) = .error "bool" := rfl
      rw [e] at hb
      exact nomatch hb
    | bool b' =>
      simp only [Option.getD, pyTruthy] at h
      subst h
      exact (Except.ok.inj hb).symm
    | int n =>
      simp only [Option.getD, pyTruthy, bne_eq_false_iff_eq] at h
      subst h
      exact (Except.ok.inj hb).symm
    | str s =>
      simp only [Option.getD, pyTruthy, bne_eq_false_iff_eq] at h
      subst h
      have e : vBoolDefFalse (some (Json.str "")) = .error "bool" := rfl
      rw [e] at hb
      exact nomatch hb
    | arr xs =>
      simp only [Option.getD, pyTruthy, Bool.not_eq_false'] at h
      rw [List.isEmpty_iff] at h
      subst h
      have e : vBoolDefFalse (some (Json.arr [])) = .error "bool" := rfl
      rw [e] at hb
      exact nomatch hb
    | obj kvs =>
      simp only [Option.getD, pyTruthy, Bool.not_eq_false'] at h
      rw [List.isEmpty_iff] at h
      subst h
      have e : vBoolDefFalse (some (Json.obj [])) = .error "bool" := rfl
      rw [e] at hb
      exact nomatch hb
    | dt d => exact nomatch h

theorem parseOntologyTermFields_obsolete {c n d du sy xr an ds cc dc ob ns : Option Json}
    {t : OntologyTerm}
    (h : parseOntologyTermFields c n d du sy xr an ds cc dc ob ns = .ok t) :
    vBoolDefFalse ob = .ok t.obsolete := by
  unfold parseOntologyTermFields at h
  simp only [exceptBind_ok_iff] at h
  obtain ⟨v1, h1, v2, h2, v3, h3, v4, h4, v5, h5, v6, h6, v7, h7, v8, h8, v9, h9,
    v10, h10, v11, h11, v12, h12, hfin⟩ := h
  have ht : (⟨v1, v2, v3, v4, v5, v6, v7, v8, v9, v10, v11, v12⟩ : OntologyTerm) = t :=
    Except.ok.inj hfin
  rw [← ht]
  exact h11

theorem ontologyLoop_obsolete_false (records : List Json) (ts : List OntologyTerm)
    (h : ontologyLoop records = .ok ts) : ∀ t ∈ ts, t.obsolete = false := by
  induction records generalizing ts with
  | nil =>
    have e : ontologyLoop [] = .ok ([] : List OntologyTerm) := rfl
    rw [e] at h
    obtain rfl := Except.ok.inj h
    intro t ht
    exact absurd ht (List.not_mem_nil t)
  | cons r rest ih =>
    cases r with
    | obj kvs =>
      by_cases hg : pyTruthy ((jGet kvs "obsolete").getD (.bool false)) = true
      · simp only [ontologyLoop, hg, if_true] at h
        exact ih ts h
      · have hg' : pyTruthy ((jGet kvs "obsolete").getD (.bool false)) = false :=
          Bool.not_eq_true _ ▸ eq_false_of_ne_true hg
        cases hp : parseOntologyTerm (.obj kvs) with
        | ok t' =>
          simp only [ontologyLoop, hg', Bool.false_eq_true, if_false, hp] at h
          rw [exceptMap_ok_iff] at h
          obtain ⟨ts', hrest, rfl⟩ := h
          intro t ht
          rcases List.mem_cons.mp ht with rfl | hmem
          · have hob : vBoolDefFalse (jGetA kvs "obsolete" "obsolete") = .ok t.obsolete := by
              have hp' : parseOntologyTermFields (jGetA kvs "curie" "curie")
                  (jGetA kvs "name" "name") (jGetA kvs "definition" "definition")
                  (jGetA kvs "definitionUrls" "definition_urls")
                  (jGetA kvs "synonyms" "synonyms")
                  (jGetA kvs "crossReferences" "cross_references")
                  (jGetA kvs "ancestors" "ancestors")
                  (jGetA kvs "descendants" "descendants")
                  (jGetA kvs "childCount" "child_count")
                  (jGetA kvs "descendantCount" "descendant_count")
                  (jGetA kvs "obsolete" "obsolete")
                  (jGetA kvs "namespace" "namespace") = .ok t := hp
              exact parseOntologyTermFields_obsolete hp'
            rw [jGetA_same] at hob
            exact vBoolDefFalse_of_falsy _ hg' _ hob
          · exact ih ts' hrest t hmem
        | error e =>
          simp only [ontologyLoop, hg', Bool.false_eq_true, if_false, hp] at h
          exact ih ts h
    | null => exact nomatch h
    | bool b => exact nomatch h
    | int n => exact nomatch h
    | str s => exact nomatch h
    | arr xs => exact nomatch h
    | dt d => exact nomatch h

end AGR

/-! ## Claim theorems -/

namespace AGR

/-- Probe environment with every backend healthy. -/
def probe_all_healthy : Backend → Nat → ProbeResult := fun _ _ => .rows 1

/-- Probe environment with only REST healthy. -/
def probe_only_rest : Backend → Nat → ProbeResult := fun b _ =>
  match b with
  | .api => .rows 3
  | _ => .failure

/-- C1: with no backend specified at construction, the client probes in
the fixed order database → GraphQL → REST (limit-1 probes), adopts the
first backend returning at least one row, and every subsequent call uses
that cached choice (the call trace is constant, a function of the
construction-time detection only); with all three backends healthy
detection resolves to the database backend, and with only REST healthy
it resolves to REST. -/
theorem C1_auto_detect_priority (probe : Backend → Nat → ProbeResult) (n : Nat) :
    call_trace (construct_client none probe) n =
      List.replicate n (detect_backend probe) ∧
    ((healthy probe .db ∧ healthy probe .graphql ∧ healthy probe .api) →
      detect_backend probe = .db) ∧
    ((¬healthy probe .db ∧ ¬healthy probe .graphql ∧ healthy probe .api) →
      detect_backend probe = .api) := by
  refine ⟨?_, ?_, ?_⟩
  · show call_trace ⟨detect_backend probe⟩ n = _
    exact call_trace_mk _ n
  · rintro ⟨h1, h2, h3⟩
    have h1' : probeHit (probe .db 1) = true := h1
    simp [detect_backend, h1']
  · rintro ⟨h1, h2, h3⟩
    have h1' : probeHit (probe .db 1) = false := Bool.eq_false_iff.mpr h1
    have h2' : probeHit (probe .graphql 1) = false := Bool.eq_false_iff.mpr h2
    have h3' : probeHit (probe .api 1) = true := h3
    simp [detect_backend, h1', h2', h3']

/-- Witness for C1 at two concrete probe environments. -/
theorem C1_auto_detect_priority_witness :
    call_trace (construct_client none probe_all_healthy) 2 = [Backend.db, Backend.db] ∧
    detect_backend probe_all_healthy = Backend.db ∧
    detect_backend probe_only_rest = Backend.api := by
  refine ⟨?_, ?_, ?_⟩
  · rw [(C1_auto_detect_priority probe_all_healthy 2).1]
    rfl
  · exact (C1_auto_detect_priority probe_all_healthy 0).2.1 ⟨rfl, rfl, rfl⟩
  · exact (C1_auto_detect_priority probe_only_rest 0).2.2
      ⟨fun hc => Bool.noConfusion hc, fun hc => Bool.noConfusion hc, rfl⟩

/-- C2: a `get_alleles` call with `transgenes_only=True` and a
`data_provider` other than `"WB"` (including `None`) raises the explicit
`AGRAPIError` before any request exists: the result carries no request
(`none`) and is the same error for every possible HTTP outcome. -/
theorem C2_transgenes_only_fail_fast (dp : Option String) (l p : Int)
    (ua : Option UpdatedParam) (o : HttpOutcome) (h : dp ≠ some "WB") :
    get_alleles dp l p ua true o =
      (none, .error (.api "Not implemented: transgenes_only is only supported for WB data provider")) := by
  have hb : (dp != some "WB") = true := bne_iff_ne.mpr h
  simp [get_alleles, hb]

/-- Witness for C2 with `data_provider=None` and a healthy outcome. -/
theorem C2_transgenes_only_fail_fast_witness :
    get_alleles none 5000 0 none true (.success 200 (.obj [("results", .arr [])])) =
      (none, .error (.api "Not implemented: transgenes_only is only supported for WB data provider")) :=
  C2_transgenes_only_fail_fast none 5000 0 none
    (.success 200 (.obj [("results", .arr [])])) (by decide)

/-- C3 counterexample: the claim says the `None` convention lets callers
distinguish "absent" (`None`) from "failed" (a raised API error), but a
failed call — an HTTP 500 — also returns `None` from `get_gene` instead
of raising: `except AGRAPIError: return None` catches every generic API
error, not just the not-found one. -/
theorem C3_counterexample :
    get_gene (.httpError 500 "Internal Server Error" "") = .ok none := by rfl

/-- C3 amended: a not-found condition (HTTP 404) yields `None` rather
than an error from `get_gene`/`get_allele`/`get_agm` — but so does every
other generic API failure (any non-401 `HTTPError`, and any other
request exception): the lookups return `None` for all of them, so `None`
means "absent or failed", and only authentication errors remain
distinguishable. -/
theorem C3_single_lookup_none (code : Nat) (reason eb m : String) (h : code ≠ 401) :
    (get_gene (.httpError code reason eb) = .ok none ∧
      get_allele (.httpError code reason eb) = .ok none ∧
      get_agm (.httpError code reason eb) = .ok none) ∧
    (get_gene (.exc m) = .ok none ∧ get_allele (.exc m) = .ok none ∧
      get_agm (.exc m) = .ok none) := by
  have e : make_request (.httpError code reason eb) =
      .error (.api ("HTTP error " ++ toString code ++ ": " ++ reason)) := by
    simp [make_request, h]
  exact ⟨⟨by simp [get_gene, e], by simp [get_allele, e], by simp [get_agm, e]⟩,
    rfl, rfl, rfl⟩

/-- Witness for C3 amended at HTTP 404 and a connection failure. -/
theorem C3_single_lookup_none_witness :
    (get_gene (.httpError 404 "Not Found" "") = .ok none ∧
      get_allele (.httpError 404 "Not Found" "") = .ok none ∧
      get_agm (.httpError 404 "Not Found" "") = .ok none) ∧
    (get_gene (.exc "connection refused") = .ok none ∧
      get_allele (.exc "connection refused") = .ok none ∧
      get_agm (.exc "connection refused") = .ok none) :=
  C3_single_lookup_none 404 "Not Found" "" "connection refused" (by decide)

end AGR

namespace AGR

/-- The concrete `Gene` of the C5 failing input: parsed with
`dateUpdated` 2024-01-02 (naive, assumed UTC), strictly later than the
2024-01-01 threshold. -/
def c5_gene : Gene :=
  ⟨none, none, none, some ⟨2024, 1, 2, 0, 0, 0, 0, none⟩, some "WB:G1", none,
    none, none, none, none, none, none, none, none, false⟩

/-- C5 (code bug): with `updated_after` set, the outgoing request does
carry the descending `dbDateUpdated` sort order — but the client-side
re-filter never returns any entity: `_filter_by_date` reads
`getattr(item, "dbDateUpdated", None)` while the pydantic models'
attribute is `date_updated` (wire alias `dateUpdated`), so the attribute
lookup yields `None` for every item and the whole parsed list is
dropped, timestamps notwithstanding. -/
theorem C5_date_filter_dead (dp : Option String) (l p : Int) (ua : UpdatedParam)
    (thr : Dt) (o : HttpOutcome) (items : List Gene)
    (htr : uaTruthy ua = true) (hthr : filterThreshold ua = .ok thr) :
    jGet (get_genes dp l p (some ua) o).1.2 "sortOrders" =
      some (.arr [.obj [("field", .str "dbDateUpdated"), ("order", .int (-1))]]) ∧
    filter_by_date getattrGene items (some ua) "dbDateUpdated" = .ok [] := by
  constructor
  · simp only [get_genes, apply_date_sorting, htr, if_true]
    exact jGet_setKey_self _ _ _
  · simp [filter_by_date, htr, hthr, filterByDateLoop_gene_dead]

/-- Witness for C5 at the failing input: a gene updated 2024-01-02 with
threshold 2024-01-01 — its normalized timestamp is strictly greater than
the threshold (last conjunct), yet the filtered result is empty. -/
theorem C5_date_filter_dead_witness :
    (jGet (get_genes (some "WB") 5000 0 (some (.s "2024-01-01"))
        (.success 200 (.obj []))).1.2 "sortOrders" =
      some (.arr [.obj [("field", .str "dbDateUpdated"), ("order", .int (-1))]]) ∧
      filter_by_date getattrGene [c5_gene] (some (.s "2024-01-01")) "dbDateUpdated" =
        .ok []) ∧
    dtGT (dtReplaceUtc ⟨2024, 1, 2, 0, 0, 0, 0, none⟩) ⟨2024, 1, 1, 0, 0, 0, 0, some 0⟩ = true :=
  ⟨C5_date_filter_dead (some "WB") 5000 0 (.s "2024-01-01")
      ⟨2024, 1, 1, 0, 0, 0, 0, some 0⟩ (.success 200 (.obj [])) [c5_gene] rfl rfl,
    by decide⟩

/-- C6: a GraphQL HTTP-200 response whose body carries a non-empty
`errors` array makes the call raise a single aggregated `AGRAPIError`
joining the individual error messages with `"; "`, and no data is
returned (the result is that error). The hypotheses pin the shape the
claim speaks about: each error is an object and each extracted message a
string. -/
theorem C6_graphql_errors (kvs : JObj) (es : List Json) (msgs : List Json)
    (strs : List String) (h1 : jGet kvs "errors" = some (.arr es)) (_hne : es ≠ [])
    (h3 : collectErrMsgs es = .ok msgs) (h4 : strList msgs = some strs) :
    make_graphql_request (.success 200 (.obj kvs)) =
      .error (.api ("GraphQL errors: " ++ String.intercalate "; " strs)) := by
  simp [make_graphql_request, h1, h3, h4]

/-- Witness for C6 at a body with two error messages. -/
theorem C6_graphql_errors_witness :
    make_graphql_request (.success 200 (.obj [("errors",
        .arr [.obj [("message", .str "boom")], .obj [("message", .str "bad")]])])) =
      .error (.api ("GraphQL errors: " ++ String.intercalate "; " ["boom", "bad"])) :=
  C6_graphql_errors _ _ [.str "boom", .str "bad"] ["boom", "bad"] rfl
    (List.cons_ne_nil _ _) rfl rfl

/-- C7 counterexample: the SQL string handed to the driver is *not* the
same for any two choices of the user-supplied arguments — two `limit`
values give different SQL texts for `get_genes_by_taxon`, because
`limit`/`offset` are f-string-interpolated into the statement
(`str(sql_query) + f" LIMIT {limit}"`), not bound. -/
theorem C7_counterexample :
    (get_genes_by_taxon_query "NCBITaxon:6239" (some 1) none false).1 ≠
      (get_genes_by_taxon_query "NCBITaxon:6239" (some 2) none false).1 := by
  decide

/-- C7 amended: for all five public query methods the *taxon curie /
data-provider abbreviation* is conveyed only as a bound parameter — the
SQL text is identical across any two values of it, and the parameter
dictionary carries the value — while `limit` and `offset` (integers by
signature) are interpolated into the SQL text. -/
theorem C7_bound_params (t t' dpv dpv' : String) (l o : Option Int) (io : Bool) :
    ((get_genes_by_taxon_query t l o io).1 = (get_genes_by_taxon_query t' l o io).1 ∧
      (get_genes_by_taxon_query t l o io).2 = [("species_taxon", t)]) ∧
    ((get_genes_raw_query t l o).1 = (get_genes_raw_query t' l o).1 ∧
      (get_genes_raw_query t l o).2 = [("species_taxon", t)]) ∧
    ((get_alleles_by_taxon_query t l o).1 = (get_alleles_by_taxon_query t' l o).1 ∧
      (get_alleles_by_taxon_query t l o).2 = [("taxon_curie", t)]) ∧
    ((get_alleles_raw_query t l o).1 = (get_alleles_raw_query t' l o).1 ∧
      (get_alleles_raw_query t l o).2 = [("taxon_curie", t)]) ∧
    ((get_alleles_by_data_provider_query dpv l o).1 =
        (get_alleles_by_data_provider_query dpv' l o).1 ∧
      (get_alleles_by_data_provider_query dpv l o).2 = [("data_provider", dpv)]) :=
  ⟨⟨rfl, rfl⟩, ⟨rfl, rfl⟩, ⟨rfl, rfl⟩, ⟨rfl, rfl⟩, ⟨rfl, rfl⟩⟩

/-- C8: `include_obsolete` defaults to false; when false, the obsolete
exclusion (both `slota.obsolete` and `be.obsolete`) is a WHERE-clause
fragment present in the build-time SQL, and when true that fragment is
absent from it; and the fetched-row processing is identical for both
flag values (the toggle is not post-filtering). -/
theorem C8_include_obsolete_where_fragment (t : String) (l o : Option Int)
    (rows : List (String × String)) :
    (db_get_genes_by_taxon_default t rows = db_get_genes_by_taxon t none none false rows) ∧
    (∃ pre post, get_genes_by_taxon_base_sql false =
        pre ++ genes_by_taxon_obsolete_filter ++ post) ∧
    (¬ ∃ pre post, get_genes_by_taxon_base_sql true =
        pre ++ genes_by_taxon_obsolete_filter ++ post) ∧
    (db_get_genes_by_taxon t l o true rows).2 = (db_get_genes_by_taxon t l o false rows).2 := by
  refine ⟨rfl, ⟨genes_by_taxon_sql_head, genes_by_taxon_sql_tail, rfl⟩, ?_, rfl⟩
  rintro ⟨pre, post, hdec⟩
  have hocc := listOccurs_of_decomposition hdec
  have hfalse : listOccurs genes_by_taxon_obsolete_filter.toList
      (get_genes_by_taxon_base_sql true).toList = false := by decide
  rw [hocc] at hfalse
  exact Bool.noConfusion hfalse

end AGR

namespace AGR

/-- C4: for every page-fetching list operation, when the `results`
records are JSON objects (the wire contract for search pages), a record
failing entity validation is skipped while every other record is parsed
and included: the call returns exactly the validating records — a
partial, possibly empty list — instead of raising. -/
theorem C4_page_parse_recovery (records : List Json)
    (h : records.all isObjB = true) (dp st : Option String) (dpr : String)
    (l p : Int) :
    (get_genes dp l p none (.success 200 (.obj [("results", .arr records)]))).2 =
      .ok (parsedOk parseGene records) ∧
    (get_species l p none (.success 200 (.obj [("results", .arr records)]))).2 =
      .ok (parsedOk parseNCBITaxonTerm records) ∧
    (get_alleles dp l p none false (.success 200 (.obj [("results", .arr records)]))).2 =
      .ok (parsedOk parseAllele records) ∧
    (get_agms dp st l p none (.success 200 (.obj [("results", .arr records)]))).2 =
      .ok (parsedOk parseAGM records) ∧
    (get_expression_annots dpr l p none
        (.success 200 (.obj [("results", .arr records)]))).2 =
      .ok (parsedOk parseExprAnnot records) := by
  refine ⟨?_, ?_, ?_, ?_, ?_⟩ <;>
    simp [get_genes, get_species, get_alleles, get_agms, get_expression_annots,
      make_request, resultsLoop, jGet, filter_by_date, pageLoop_allObj _ _ h]

/-- Records of the C4 witness: one valid gene-like record and one whose
`curie` is an integer (a pydantic validation failure for every entity). -/
def c4_records : List Json :=
  [.obj [("curie", .str "X:1")], .obj [("curie", .int 5)]]

/-- The single entity surviving the C4 witness page parse. -/
def c4_gene : Gene :=
  ⟨none, none, none, none, some "X:1", none, none, none, none, none, none,
    none, none, none, false⟩

/-- Witness for C4: the invalid second record is skipped, the valid first
one is returned. -/
theorem C4_page_parse_recovery_witness :
    ((get_genes none 5000 0 none
        (.success 200 (.obj [("results", .arr c4_records)]))).2 =
      .ok (parsedOk parseGene c4_records) ∧
    (get_species 5000 0 none
        (.success 200 (.obj [("results", .arr c4_records)]))).2 =
      .ok (parsedOk parseNCBITaxonTerm c4_records) ∧
    (get_alleles none 5000 0 none false
        (.success 200 (.obj [("results", .arr c4_records)]))).2 =
      .ok (parsedOk parseAllele c4_records) ∧
    (get_agms none none 5000 0 none
        (.success 200 (.obj [("results", .arr c4_records)]))).2 =
      .ok (parsedOk parseAGM c4_records) ∧
    (get_expression_annots "WB" 5000 0 none
        (.success 200 (.obj [("results", .arr c4_records)]))).2 =
      .ok (parsedOk parseExprAnnot c4_records)) ∧
    parsedOk parseGene c4_records = [c4_gene] :=
  ⟨C4_page_parse_recovery c4_records (by decide) none none "WB" 5000 0, rfl⟩

/-- C9 amended: parse→serialize→parse is the identity on parsed entities
for all five models, *provided* the audit `created_by`/`updated_by`
values are not themselves mappings (see the counterexample: a wire user
object whose `uniqueId` is a mapping survives the first parse as a dict
and is re-collapsed differently on the second). `OntologyTerm` and
`ExpressionAnnotation` carry no audit-user fields, so their round trip
is unconditional. -/
theorem C9_roundtrip_amended :
    (∀ g : Gene, userOk g.created_by = true → userOk g.updated_by = true →
      parseGene (serializeGene g) = .ok g) ∧
    (∀ a : Allele, userOk a.created_by = true → userOk a.updated_by = true →
      parseAllele (serializeAllele a) = .ok a) ∧
    (∀ s : Species, userOk s.created_by = true → userOk s.updated_by = true →
      parseSpecies (serializeSpecies s) = .ok s) ∧
    (∀ t : OntologyTerm, parseOntologyTerm (serializeOntologyTerm t) = .ok t) ∧
    (∀ x : ExpressionAnnot, parseExprAnnot (serializeExprAnnot x) = .ok x) :=
  ⟨parseGene_serializeGene, parseAllele_serializeAllele,
    parseSpecies_serializeSpecies, parseOntologyTerm_serialize,
    parseExprAnnot_serialize⟩

/-- Concrete `Gene` for the C9 witness (string audit user, a timestamp,
names and flags populated). -/
def c9_witness_gene : Gene :=
  ⟨some (.str "curator1"), some ⟨2024, 1, 1, 0, 0, 0, 0, some 0⟩, none, none,
    some "WB:G1", some "WB:G1", some [("displayText", .str "abc-1")], none,
    none, none, none, none, none, none, true⟩

/-- Concrete `OntologyTerm` for the C9 witness. -/
def c9_witness_term : OntologyTerm :=
  ⟨"GO:0008150", some "biological_process", none, none, none, none, none,
    none, some 29, none, false, some "biological_process"⟩

/-- Witness for C9 amended at concrete entities. -/
theorem C9_roundtrip_amended_witness :
    parseGene (serializeGene c9_witness_gene) = .ok c9_witness_gene ∧
    parseAllele (serializeAllele ⟨none, none, none, none, some "WB:A1", none,
      none, none, none, none, none, some false, none, none, none, none, false,
      none, none, none, none, none, none, none⟩) =
      .ok ⟨none, none, none, none, some "WB:A1", none, none, none, none, none,
        none, some false, none, none, none, none, false, none, none, none,
        none, none, none, none⟩ ∧
    parseSpecies (serializeSpecies ⟨none, none, none, none, some "NCBITaxon:6239",
      none, some "Cel", none, none, none, none, some 10⟩) =
      .ok ⟨none, none, none, none, some "NCBITaxon:6239", none, some "Cel",
        none, none, none, none, some 10⟩ ∧
    parseOntologyTerm (serializeOntologyTerm c9_witness_term) = .ok c9_witness_term ∧
    parseExprAnnot (serializeExprAnnot ⟨some "EXPR:1", none, none,
      some "embryo", none, none, some false, none, none, none⟩) =
      .ok ⟨some "EXPR:1", none, none, some "embryo", none, none, some false,
        none, none, none⟩ :=
  ⟨C9_roundtrip_amended.1 c9_witness_gene rfl rfl,
    C9_roundtrip_amended.2.1 _ rfl rfl,
    C9_roundtrip_amended.2.2.1 _ rfl rfl,
    C9_roundtrip_amended.2.2.2.1 c9_witness_term,
    C9_roundtrip_amended.2.2.2.2 _⟩

/-- The wire mapping of the C9 counterexample: `createdBy` is a user
object whose `uniqueId` is itself a mapping. -/
def c9_wire : Json :=
  .obj [("createdBy", .obj [("uniqueId", .obj [("x", .int 1)])])]

/-- The `Gene` the C9 counterexample wire mapping parses to:
`extract_user_id` stores the `uniqueId` mapping itself. -/
def c9_parsed : Gene :=
  ⟨some (.obj [("x", .int 1)]), none, none, none, none, none, none, none,
    none, none, none, none, none, none, false⟩

/-- C9 counterexample: an entity successfully parsed from a wire mapping
whose serialize→parse round trip is *not* the identity — on reparse,
`extract_user_id` no longer finds a `uniqueId`/`id` inside the stored
dict and collapses it to its `str(...)` rendering. -/
theorem C9_counterexample :
    parseGene c9_wire = .ok c9_parsed ∧
    parseGene (serializeGene c9_parsed) ≠ .ok c9_parsed := by
  refine ⟨rfl, fun h => ?_⟩
  have h2 := congrArg (fun r : Except String Gene =>
    match r with
    | .ok g => (match g.created_by with
      | some (.obj _) => true
      | _ => false)
    | .error _ => false) h
  exact absurd h2 (by decide)

/-- C10: both ontology navigation endpoints drop every raw record whose
`obsolete` entry is truthy before parsing, so every term either method
returns has `obsolete = false`. -/
theorem C10_ontology_obsolete_filtered :
    (∀ (nt : String) (o : HttpOutcome) (ts : List OntologyTerm),
      (get_ontology_root_nodes nt o).2 = .ok ts → ∀ t ∈ ts, t.obsolete = false) ∧
    (∀ (nc nt : String) (o : HttpOutcome) (ts : List OntologyTerm),
      (get_ontology_node_children nc nt o).2 = .ok ts →
        ∀ t ∈ ts, t.obsolete = false) := by
  constructor
  · intro nt o ts h t ht
    cases hmr : make_request o with
    | ok kvs =>
      simp only [get_ontology_root_nodes, hmr] at h
      unfold entitiesLoop at h
      cases hj : jGet kvs "entities" with
      | none =>
        rw [hj] at h
        obtain rfl := Except.ok.inj h
        exact absurd ht (List.not_mem_nil t)
      | some j =>
        rw [hj] at h
        cases j with
        | arr xs => exact ontologyLoop_obsolete_false xs ts h t ht
        | null => exact nomatch h
        | bool b => exact nomatch h
        | int n => exact nomatch h
        | str s => exact nomatch h
        | obj kvs2 => exact nomatch h
        | dt d => exact nomatch h
    | error e =>
      simp only [get_ontology_root_nodes, hmr] at h
      exact nomatch h
  · intro nc nt o ts h t ht
    cases hmr : make_request o with
    | ok kvs =>
      simp only [get_ontology_node_children, hmr] at h
      unfold entitiesLoop at h
      cases hj : jGet kvs "entities" with
      | none =>
        rw [hj] at h
        obtain rfl := Except.ok.inj h
        exact absurd ht (List.not_mem_nil t)
      | some j =>
        rw [hj] at h
        cases j with
        | arr xs => exact ontologyLoop_obsolete_false xs ts h t ht
        | null => exact nomatch h
        | bool b => exact nomatch h
        | int n => exact nomatch h
        | str s => exact nomatch h
        | obj kvs2 => exact nomatch h
        | dt d => exact nomatch h
    | error e =>
      simp only [get_ontology_node_children, hmr] at h
      exact nomatch h

/-- Response body of the C10 witness: one obsolete and one live term. -/
def c10_body : JObj :=
  [("entities", .arr [.obj [("curie", .str "GO:1"), ("obsolete", .bool true)],
    .obj [("curie", .str "GO:2")]])]

/-- The only term surviving the C10 witness response. -/
def c10_term : OntologyTerm :=
  ⟨"GO:2", none, none, none, none, none, none, none, none, none, false, none⟩

/-- Witness for C10: the obsolete record is dropped and the surviving
term has `obsolete = false`, by the theorem. -/
theorem C10_ontology_obsolete_filtered_witness :
    (get_ontology_root_nodes "goterm" (.success 200 (.obj c10_body))).2 =
      .ok [c10_term] ∧
    c10_term.obsolete = false :=
  ⟨rfl, C10_ontology_obsolete_filtered.1 "goterm" (.success 200 (.obj c10_body))
    [c10_term] rfl c10_term (List.mem_singleton.mpr rfl)⟩

end AGR
